import Mathlib

/-!
# Navigation category registry (`CalcViewModel/Common/NavCategory.cpp`)

A shallow embedding of the static category manifest and of the query functions
of `NavCategory` over it, followed by the properties proved about them.

Process state is passed explicitly:
* `supportGraph` is the function-local static of `IsGraphingModeAvailable`
  (the platform capability, fixed for the process);
* `policy` is what the registry read `RegGetValueW` yields at the moment of a
  call: `some v` for `ERROR_SUCCESS` with the DWORD `v`, `none` for any other status;
* `cached` is the global `_isGraphingModeEnabledCached` (`none` is `nullptr`).
-/

namespace CalculatorApp

/-- Modelled from the spec: the enum `ViewMode` is declared in `NavCategory.h`, which is
not part of the sources at hand; its enumerators are the ones `NavCategory.cpp` names
(`None` is the sentinel mode). -/
inductive ViewMode
  | None | Standard | Scientific | Programmer | Date | Volume | Length | Weight
  | Temperature | Energy | Area | Speed | Time | Power | Data | Pressure | Angle
  | Currency | Graphing
  deriving DecidableEq, Repr

/-- Modelled from the spec: the enum `CategoryGroupType` of `NavCategory.h` (absent),
with the three enumerators the source uses. -/
inductive CategoryGroupType
  | None | Calculator | Converter
  deriving DecidableEq, Repr

/-- Modelled from the spec: the enum `MyVirtualKey` of the absent key-enumeration header.
`NavCategory.cpp` names `None` and `Number1` to `Number5`; every other enumerator of the
header is `Other code`. -/
inductive MyVirtualKey
  | None | Number1 | Number2 | Number3 | Number4 | Number5
  | Other (code : Nat)
  deriving DecidableEq, Repr

/-- The aggregate `NavCategoryInitializer` as `s_categoryManifest` initialises it, field by
field in the order of the braces; `accessKey` is `none` for `nullptr`. -/
structure NavCategoryInitializer where
  viewMode : ViewMode
  serializationId : Int
  friendlyName : String
  nameResourceKey : String
  glyph : String
  groupType : CategoryGroupType
  virtualKey : MyVirtualKey
  accessKey : Option String
  supportsNegative : Bool
  isEnabled : Bool
  isPreview : Bool
  deriving DecidableEq, Repr

/-- A `Platform::Object^` as far as `Deserialize` can tell values apart: the null handle,
a boxed `int`, and boxes of other types. -/
inductive PlatformObject
  | nullptr
  | BoxInt (Value : Int)
  | BoxBool (Value : Bool)
  | BoxString (Data : String)
  | Other (typeTag : Nat)
  deriving DecidableEq, Repr

def SUPPORTS_ALL : Bool := true
def SUPPORTS_NEGATIVE : Bool := true
def POSITIVE_ONLY : Bool := false

def STANDARD_ID : Int := 0
def SCIENTIFIC_ID : Int := 1
def PROGRAMMER_ID : Int := 2
def DATE_ID : Int := 3
def VOLUME_ID : Int := 4
def LENGTH_ID : Int := 5
def WEIGHT_ID : Int := 6
def TEMPERATURE_ID : Int := 7
def ENERGY_ID : Int := 8
def AREA_ID : Int := 9
def SPEED_ID : Int := 10
def TIME_ID : Int := 11
def POWER_ID : Int := 12
def DATA_ID : Int := 13
def PRESSURE_ID : Int := 14
def ANGLE_ID : Int := 15
def CURRENCY_ID : Int := 16
def GRAPHING_ID : Int := 17

/-- The source's `towchar_t`: the decimal text of `number` (`to_wstring`). -/
def towchar_t (number : Int) : String := toString number

/-- The source's `IsGraphingModeAvailable`: returns the static `supportGraph`. -/
def IsGraphingModeAvailable (supportGraph : Bool) : Bool := supportGraph

/-- The source's `IsGraphingModeEnabled`: the returned value and the cache afterwards. -/
def IsGraphingModeEnabled (supportGraph : Bool) (policy : Option Nat) (cached : Option Bool) :
    Bool × Option Bool :=
  if !IsGraphingModeAvailable supportGraph then
    (false, cached)
  else
    match cached with
    | some value => (value, cached)
    | none =>
      match policy with
      | some allowGraphingCalculator =>
        (allowGraphingCalculator != 0, some (allowGraphingCalculator != 0))
      | none => (true, some true)

/-- The lambda initialising `s_categoryManifest`: the list it returns and the cache after
its call of `IsGraphingModeEnabled`. -/
def s_categoryManifest (supportGraph : Bool) (policy : Option Nat) (cached : Option Bool) :
    List NavCategoryInitializer × Option Bool :=
  let res : List NavCategoryInitializer :=
    [ { viewMode := ViewMode.Standard, serializationId := STANDARD_ID,
        friendlyName := "Standard", nameResourceKey := "StandardMode", glyph := "\uE8EF",
        groupType := CategoryGroupType.Calculator, virtualKey := MyVirtualKey.Number1,
        accessKey := some "1", supportsNegative := SUPPORTS_ALL, isEnabled := true,
        isPreview := false },
      { viewMode := ViewMode.Scientific, serializationId := SCIENTIFIC_ID,
        friendlyName := "Scientific", nameResourceKey := "ScientificMode", glyph := "\uF196",
        groupType := CategoryGroupType.Calculator, virtualKey := MyVirtualKey.Number2,
        accessKey := some "2", supportsNegative := SUPPORTS_ALL, isEnabled := true,
        isPreview := false } ]
  let currentIndex : Int := 3
  let supportGraphingCalculator := IsGraphingModeAvailable supportGraph
  let pushed : List NavCategoryInitializer × Int × Option Bool :=
    if supportGraphingCalculator then
      let isEnabled := IsGraphingModeEnabled supportGraph policy cached
      (res ++
        [ { viewMode := ViewMode.Graphing, serializationId := GRAPHING_ID,
            friendlyName := "Graphing", nameResourceKey := "GraphingCalculatorMode",
            glyph := "\uF770", groupType := CategoryGroupType.Calculator,
            virtualKey := MyVirtualKey.Number3, accessKey := some "3",
            supportsNegative := SUPPORTS_ALL, isEnabled := isEnabled.1, isPreview := true } ],
       currentIndex + 1, isEnabled.2)
    else
      (res, currentIndex, cached)
  let res := pushed.1
  let currentIndex := pushed.2.1
  (res ++
    [ { viewMode := ViewMode.Programmer, serializationId := PROGRAMMER_ID,
        friendlyName := "Programmer", nameResourceKey := "ProgrammerMode", glyph := "\uECCE",
        groupType := CategoryGroupType.Calculator,
        virtualKey :=
          if supportGraphingCalculator then MyVirtualKey.Number4 else MyVirtualKey.Number3,
        accessKey := some (towchar_t currentIndex), supportsNegative := SUPPORTS_ALL,
        isEnabled := true, isPreview := false },
      { viewMode := ViewMode.Date, serializationId := DATE_ID,
        friendlyName := "Date", nameResourceKey := "DateCalculationMode", glyph := "\uE787",
        groupType := CategoryGroupType.Calculator,
        virtualKey :=
          if supportGraphingCalculator then MyVirtualKey.Number5 else MyVirtualKey.Number4,
        accessKey := some (towchar_t (currentIndex + 1)), supportsNegative := SUPPORTS_ALL,
        isEnabled := true, isPreview := false },
      { viewMode := ViewMode.Currency, serializationId := CURRENCY_ID,
        friendlyName := "Currency", nameResourceKey := "CategoryName_Currency",
        glyph := "\uEB0D", groupType := CategoryGroupType.Converter,
        virtualKey := MyVirtualKey.None, accessKey := none,
        supportsNegative := POSITIVE_ONLY, isEnabled := true, isPreview := false },
      { viewMode := ViewMode.Volume, serializationId := VOLUME_ID,
        friendlyName := "Volume", nameResourceKey := "CategoryName_Volume",
        glyph := "\uF1AA", groupType := CategoryGroupType.Converter,
        virtualKey := MyVirtualKey.None, accessKey := none,
        supportsNegative := POSITIVE_ONLY, isEnabled := true, isPreview := false },
      { viewMode := ViewMode.Length, serializationId := LENGTH_ID,
        friendlyName := "Length", nameResourceKey := "CategoryName_Length",
        glyph := "\uECC6", groupType := CategoryGroupType.Converter,
        virtualKey := MyVirtualKey.None, accessKey := none,
        supportsNegative := POSITIVE_ONLY, isEnabled := true, isPreview := false },
      { viewMode := ViewMode.Weight, serializationId := WEIGHT_ID,
        friendlyName := "Weight and Mass", nameResourceKey := "CategoryName_Weight",
        glyph := "\uF4C1", groupType := CategoryGroupType.Converter,
        virtualKey := MyVirtualKey.None, accessKey := none,
        supportsNegative := POSITIVE_ONLY, isEnabled := true, isPreview := false },
      { viewMode := ViewMode.Temperature, serializationId := TEMPERATURE_ID,
        friendlyName := "Temperature", nameResourceKey := "CategoryName_Temperature",
        glyph := "\uE7A3", groupType := CategoryGroupType.Converter,
        virtualKey := MyVirtualKey.None, accessKey := none,
        supportsNegative := SUPPORTS_NEGATIVE, isEnabled := true, isPreview := false },
      { viewMode := ViewMode.Energy, serializationId := ENERGY_ID,
        friendlyName := "Energy", nameResourceKey := "CategoryName_Energy",
        glyph := "\uECAD", groupType := CategoryGroupType.Converter,
        virtualKey := MyVirtualKey.None, accessKey := none,
        supportsNegative := POSITIVE_ONLY, isEnabled := true, isPreview := false },
      { viewMode := ViewMode.Area, serializationId := AREA_ID,
        friendlyName := "Area", nameResourceKey := "CategoryName_Area",
        glyph := "\uE809", groupType := CategoryGroupType.Converter,
        virtualKey := MyVirtualKey.None, accessKey := none,
        supportsNegative := POSITIVE_ONLY, isEnabled := true, isPreview := false },
      { viewMode := ViewMode.Speed, serializationId := SPEED_ID,
        friendlyName := "Speed", nameResourceKey := "CategoryName_Speed",
        glyph := "\uEADA", groupType := CategoryGroupType.Converter,
        virtualKey := MyVirtualKey.None, accessKey := none,
        supportsNegative := POSITIVE_ONLY, isEnabled := true, isPreview := false },
      { viewMode := ViewMode.Time, serializationId := TIME_ID,
        friendlyName := "Time", nameResourceKey := "CategoryName_Time",
        glyph := "\uE917", groupType := CategoryGroupType.Converter,
        virtualKey := MyVirtualKey.None, accessKey := none,
        supportsNegative := POSITIVE_ONLY, isEnabled := true, isPreview := false },
      { viewMode := ViewMode.Power, serializationId := POWER_ID,
        friendlyName := "Power", nameResourceKey := "CategoryName_Power",
        glyph := "\uE945", groupType := CategoryGroupType.Converter,
        virtualKey := MyVirtualKey.None, accessKey := none,
        supportsNegative := SUPPORTS_NEGATIVE, isEnabled := true, isPreview := false },
      { viewMode := ViewMode.Data, serializationId := DATA_ID,
        friendlyName := "Data", nameResourceKey := "CategoryName_Data",
        glyph := "\uF20F", groupType := CategoryGroupType.Converter,
        virtualKey := MyVirtualKey.None, accessKey := none,
        supportsNegative := POSITIVE_ONLY, isEnabled := true, isPreview := false },
      { viewMode := ViewMode.Pressure, serializationId := PRESSURE_ID,
        friendlyName := "Pressure", nameResourceKey := "CategoryName_Pressure",
        glyph := "\uEC4A", groupType := CategoryGroupType.Converter,
        virtualKey := MyVirtualKey.None, accessKey := none,
        supportsNegative := POSITIVE_ONLY, isEnabled := true, isPreview := false },
      { viewMode := ViewMode.Angle, serializationId := ANGLE_ID,
        friendlyName := "Angle", nameResourceKey := "CategoryName_Angle",
        glyph := "\uF515", groupType := CategoryGroupType.Converter,
        virtualKey := MyVirtualKey.None, accessKey := none,
        supportsNegative := SUPPORTS_NEGATIVE, isEnabled := true, isPreview := false } ],
   pushed.2.2)

/-- The C library's `wcscmp` on two character buffers, each ended by its first NUL or by
the end of its data: 0 when the two C strings are equal, otherwise negative or positive
as the first differing character orders them. -/
def wcscmp : List Char → List Char → Int
  | [], [] => 0
  | [], c2 :: _ => if c2 = Char.ofNat 0 then 0 else -1
  | c1 :: _, [] => if c1 = Char.ofNat 0 then 0 else 1
  | c1 :: s1, c2 :: s2 =>
    if c1 = c2 then (if c1 = Char.ofNat 0 then 0 else wcscmp s1 s2)
    else if c1 < c2 then -1 else 1

namespace NavCategory

/-- The source's `Serialize`: `find_if` on the view mode, then the id or -1. -/
def Serialize (manifest : List NavCategoryInitializer) (mode : ViewMode) : Int :=
  match manifest.find? (fun initializer => initializer.viewMode == mode) with
  | some iter => iter.serializationId
  | none => -1

/-- The source's `Deserialize`: the mode returned and the cache afterwards (the call of
`IsGraphingModeEnabled` may fill it). -/
def Deserialize (manifest : List NavCategoryInitializer) (supportGraph : Bool)
    (policy : Option Nat) (cached : Option Bool) (obj : PlatformObject) :
    ViewMode × Option Bool :=
  match obj with
  | PlatformObject.BoxInt serializationId =>
    match manifest.find? (fun initializer => initializer.serializationId == serializationId) with
    | some iter =>
      if iter.viewMode = ViewMode.Graphing then
        let enabled := IsGraphingModeEnabled supportGraph policy cached
        if !enabled.1 then (ViewMode.None, enabled.2) else (iter.viewMode, enabled.2)
      else
        (iter.viewMode, cached)
    | none => (ViewMode.None, cached)
  | _ => (ViewMode.None, cached)

/-- The source's `IsValidViewMode`. -/
def IsValidViewMode (manifest : List NavCategoryInitializer) (mode : ViewMode) : Bool :=
  (manifest.find? (fun initializer => initializer.viewMode == mode)).isSome

/-- The source's `IsGraphingCalculatorViewMode`. -/
def IsGraphingCalculatorViewMode (mode : ViewMode) : Bool := mode == ViewMode.Graphing

/-- The source's `IsDateCalculatorViewMode`. -/
def IsDateCalculatorViewMode (mode : ViewMode) : Bool := mode == ViewMode.Date

/-- The source's `IsModeInCategoryGroup`. -/
def IsModeInCategoryGroup (manifest : List NavCategoryInitializer) (mode : ViewMode)
    (type : CategoryGroupType) : Bool :=
  (manifest.find? (fun initializer =>
    initializer.viewMode == mode && initializer.groupType == type)).isSome

/-- The source's `IsCalculatorViewMode`. -/
def IsCalculatorViewMode (manifest : List NavCategoryInitializer) (mode : ViewMode) : Bool :=
  !IsDateCalculatorViewMode mode && !IsGraphingCalculatorViewMode mode
    && IsModeInCategoryGroup manifest mode CategoryGroupType.Calculator

/-- The source's `IsConverterViewMode`. -/
def IsConverterViewMode (manifest : List NavCategoryInitializer) (mode : ViewMode) : Bool :=
  IsModeInCategoryGroup manifest mode CategoryGroupType.Converter

/-- The source's `GetFriendlyName`. -/
def GetFriendlyName (manifest : List NavCategoryInitializer) (mode : ViewMode) : String :=
  match manifest.find? (fun initializer => initializer.viewMode == mode) with
  | some iter => iter.friendlyName
  | none => "None"

/-- The source's `GetViewModeForFriendlyName`; `name->Data()` is the character buffer of
`name`, which `wcscmp` reads as a C string. -/
def GetViewModeForFriendlyName (manifest : List NavCategoryInitializer) (name : String) :
    ViewMode :=
  match manifest.find?
      (fun initializer => wcscmp initializer.friendlyName.data name.data == 0) with
  | some iter => iter.viewMode
  | none => ViewMode.None

/-- The source's `GetNameResourceKey`; `none` is the `nullptr` string. -/
def GetNameResourceKey (manifest : List NavCategoryInitializer) (mode : ViewMode) :
    Option String :=
  match manifest.find? (fun initializer => initializer.viewMode == mode) with
  | some iter => some (iter.nameResourceKey ++ "Text")
  | none => none

/-- The source's `GetGroupType`. -/
def GetGroupType (manifest : List NavCategoryInitializer) (mode : ViewMode) :
    CategoryGroupType :=
  match manifest.find? (fun initializer => initializer.viewMode == mode) with
  | some iter => iter.groupType
  | none => CategoryGroupType.None

/-- The `find_if` of `GetPosition`, whose predicate increments the captured `position`
at every element it visits: the value of `position` where it stops, `none` at `end()`. -/
def GetPosition.scan (mode : ViewMode) : List NavCategoryInitializer → Int → Option Int
  | [], _ => none
  | initializer :: rest, position =>
    let position := position + 1
    if initializer.viewMode = mode then some position else GetPosition.scan mode rest position

/-- The source's `GetPosition`. -/
def GetPosition (manifest : List NavCategoryInitializer) (mode : ViewMode) : Int :=
  match GetPosition.scan mode manifest 0 with
  | some position => position
  | none => -1

/-- The source's `GetIndex`. -/
def GetIndex (manifest : List NavCategoryInitializer) (mode : ViewMode) : Int :=
  let position := GetPosition manifest mode
  max (-1) (position - 1)

/-- The `find_if` of `GetFlatIndex`, whose predicate updates the captured `index` and
`type`: the value of `index` where it stops, `none` at `end()`. -/
def GetFlatIndex.scan (mode : ViewMode) :
    List NavCategoryInitializer → Int → CategoryGroupType → Option Int
  | [], _, _ => none
  | initializer :: rest, index, type =>
    let index := index + 1
    let step : Int × CategoryGroupType :=
      if initializer.groupType ≠ type then (index + 1, initializer.groupType) else (index, type)
    if initializer.viewMode = mode then some step.1 else GetFlatIndex.scan mode rest step.1 step.2

/-- The source's `GetFlatIndex`. -/
def GetFlatIndex (manifest : List NavCategoryInitializer) (mode : ViewMode) : Int :=
  match GetFlatIndex.scan mode manifest (-1) CategoryGroupType.None with
  | some index => index
  | none => -1

/-- The `find_if` of `GetIndexInGroup`, whose predicate increments the captured `index`
on the elements of the group: the value of `index` where it stops, `none` at `end()`. -/
def GetIndexInGroup.scan (mode : ViewMode) (type : CategoryGroupType) :
    List NavCategoryInitializer → Int → Option Int
  | [], _ => none
  | initializer :: rest, index =>
    if initializer.groupType = type then
      let index := index + 1
      if initializer.viewMode = mode then some index
      else GetIndexInGroup.scan mode type rest index
    else GetIndexInGroup.scan mode type rest index

/-- The source's `GetIndexInGroup`. -/
def GetIndexInGroup (manifest : List NavCategoryInitializer) (mode : ViewMode)
    (type : CategoryGroupType) : Int :=
  match GetIndexInGroup.scan mode type manifest (-1) with
  | some index => index
  | none => -1

/-- The source's `GetViewModeForVirtualKey`. -/
def GetViewModeForVirtualKey (manifest : List NavCategoryInitializer)
    (virtualKey : MyVirtualKey) : ViewMode :=
  match manifest.find? (fun initializer => initializer.virtualKey == virtualKey) with
  | some iter => iter.viewMode
  | none => ViewMode.None

/-- The source's `GetCategoryAcceleratorKeys`. -/
def GetCategoryAcceleratorKeys (manifest : List NavCategoryInitializer) : List MyVirtualKey :=
  manifest.foldl (fun accelerators category =>
    if category.virtualKey ≠ MyVirtualKey.None then accelerators ++ [category.virtualKey]
    else accelerators) []

/-- The source's `IsViewModePreview`. -/
def IsViewModePreview (manifest : List NavCategoryInitializer) (mode : ViewMode) : Bool :=
  match manifest.find? (fun initializer => initializer.viewMode == mode) with
  | some iter => iter.isPreview
  | none => false

end NavCategory

/-- Modelled from the spec: the localization services of `AppResourceProvider.h` and
`Common/LocalizationStringUtil.h`, which are absent: the resource lookup by key and the
substitution of arguments into a format, taken as parameters. -/
structure Localization where
  GetResourceString : String → String
  GetLocalizedString : String → List String → String

/-- Modelled from the spec: the ref class `NavCategory` of `NavCategory.h` (absent), with one
field for each argument of the constructor call in `NavCategoryGroup::NavCategoryGroup`,
in the order of the call. -/
structure NavCategory where
  m_name : String
  m_automationName : String
  m_glyph : String
  m_accessKey : String
  m_mode : String
  m_viewMode : ViewMode
  m_supportsNegative : Bool
  m_isEnabled : Bool
  m_isPreview : Bool
  deriving DecidableEq

/-- The aggregate `NavCategoryGroupInitializer`, field by field in the order of the braces
in `CreateCalculatorCategory` and `CreateConverterCategory`. -/
structure NavCategoryGroupInitializer where
  type : CategoryGroupType
  headerResourceKey : String
  modeResourceKey : String
  automationResourceKey : String

/-- The members that `NavCategoryGroup::NavCategoryGroup` sets. -/
structure NavCategoryGroup where
  m_GroupType : CategoryGroupType
  m_Name : String
  m_AutomationName : String
  m_Categories : List NavCategory

/-- The source's constructor `NavCategoryGroup::NavCategoryGroup`. -/
def NavCategoryGroup.NavCategoryGroup (manifest : List NavCategoryInitializer)
    (resProvider : Localization) (groupInitializer : NavCategoryGroupInitializer) :
    CalculatorApp.NavCategoryGroup :=
  let m_Name := resProvider.GetResourceString groupInitializer.headerResourceKey
  let groupMode := resProvider.GetResourceString groupInitializer.modeResourceKey
  let automationName := resProvider.GetResourceString groupInitializer.automationResourceKey
  let navCategoryHeaderAutomationNameFormat :=
    resProvider.GetResourceString "NavCategoryHeader_AutomationNameFormat"
  let m_AutomationName :=
    resProvider.GetLocalizedString navCategoryHeaderAutomationNameFormat [automationName]
  let navCategoryItemAutomationNameFormat :=
    resProvider.GetResourceString "NavCategoryItem_AutomationNameFormat"
  let m_Categories : List CalculatorApp.NavCategory :=
    manifest.foldl (fun categories categoryInitializer =>
      if categoryInitializer.groupType = groupInitializer.type then
        let nameResourceKey := categoryInitializer.nameResourceKey
        let categoryName := resProvider.GetResourceString (nameResourceKey ++ "Text")
        let categoryAutomationName :=
          resProvider.GetLocalizedString navCategoryItemAutomationNameFormat
            [categoryName, m_Name]
        categories ++
          [ { m_name := categoryName,
              m_automationName := categoryAutomationName,
              m_glyph := categoryInitializer.glyph,
              m_accessKey :=
                match categoryInitializer.accessKey with
                | some accessKey => accessKey
                | none => resProvider.GetResourceString (nameResourceKey ++ "AccessKey"),
              m_mode := groupMode,
              m_viewMode := categoryInitializer.viewMode,
              m_supportsNegative := categoryInitializer.supportsNegative,
              m_isEnabled := categoryInitializer.isEnabled,
              m_isPreview := categoryInitializer.isPreview } ]
      else categories) []
  { m_GroupType := groupInitializer.type, m_Name := m_Name,
    m_AutomationName := m_AutomationName, m_Categories := m_Categories }

/-- The source's `NavCategoryGroup::CreateCalculatorCategory`. -/
def NavCategoryGroup.CreateCalculatorCategory (manifest : List NavCategoryInitializer)
    (resProvider : Localization) : CalculatorApp.NavCategoryGroup :=
  NavCategoryGroup.NavCategoryGroup manifest resProvider
    { type := CategoryGroupType.Calculator, headerResourceKey := "CalculatorModeTextCaps",
      modeResourceKey := "CalculatorModeText",
      automationResourceKey := "CalculatorModePluralText" }

/-- The source's `NavCategoryGroup::CreateConverterCategory`. -/
def NavCategoryGroup.CreateConverterCategory (manifest : List NavCategoryInitializer)
    (resProvider : Localization) : CalculatorApp.NavCategoryGroup :=
  NavCategoryGroup.NavCategoryGroup manifest resProvider
    { type := CategoryGroupType.Converter, headerResourceKey := "ConverterModeTextCaps",
      modeResourceKey := "ConverterModeText",
      automationResourceKey := "ConverterModePluralText" }

/-- The source's `NavCategoryGroup::CreateMenuOptions`. -/
def NavCategoryGroup.CreateMenuOptions (manifest : List NavCategoryInitializer)
    (resProvider : Localization) : List CalculatorApp.NavCategoryGroup :=
  let menuOptions : List CalculatorApp.NavCategoryGroup := []
  let menuOptions := menuOptions ++ [NavCategoryGroup.CreateCalculatorCategory manifest resProvider]
  let menuOptions := menuOptions ++ [NavCategoryGroup.CreateConverterCategory manifest resProvider]
  menuOptions

/-- The view mode and the three flags of every entry of a group, in list order. -/
def menuEntries (group : NavCategoryGroup) : List (ViewMode × Bool × Bool × Bool) :=
  group.m_Categories.map (fun category =>
    (category.m_viewMode, category.m_supportsNegative, category.m_isEnabled,
      category.m_isPreview))

/-- The view modes of the entries of a group, in list order. -/
def menuViewModes (group : NavCategoryGroup) : List ViewMode :=
  group.m_Categories.map (fun category => category.m_viewMode)

/-- The view mode and the three flags of the manifest descriptors of a group, in manifest
order. -/
def manifestEntries (manifest : List NavCategoryInitializer) (type : CategoryGroupType) :
    List (ViewMode × Bool × Bool × Bool) :=
  (manifest.filter (fun initializer => initializer.groupType == type)).map
    (fun initializer =>
      (initializer.viewMode, initializer.supportsNegative, initializer.isEnabled,
        initializer.isPreview))

/-- The manifest of a process whose capability check gave `supportGraph` and whose
first policy evaluation gave `isEnabled` (used to name the manifest in statements). -/
def manifestOf (supportGraph isEnabled : Bool) : List NavCategoryInitializer :=
  (s_categoryManifest supportGraph (some (if isEnabled then 1 else 0)) none).1

/-- The view modes of a manifest, in manifest order. -/
def viewModes (manifest : List NavCategoryInitializer) : List ViewMode :=
  manifest.map (fun initializer => initializer.viewMode)

/-- The fields of a descriptor other than its accelerator key and access-key literal. -/
def fixedFields (d : NavCategoryInitializer) :
    ViewMode × Int × String × String × String × CategoryGroupType × Bool × Bool × Bool :=
  (d.viewMode, d.serializationId, d.friendlyName, d.nameResourceKey, d.glyph, d.groupType,
    d.supportsNegative, d.isEnabled, d.isPreview)

/-- The key `Number_i` of the statements below, for the digits the source names. -/
def numberKey : Nat → MyVirtualKey
  | 1 => MyVirtualKey.Number1
  | 2 => MyVirtualKey.Number2
  | 3 => MyVirtualKey.Number3
  | 4 => MyVirtualKey.Number4
  | 5 => MyVirtualKey.Number5
  | n => MyVirtualKey.Other n

/-- The number of Calculator-group entries of a manifest. -/
def calculatorCount (manifest : List NavCategoryInitializer) : Nat :=
  (manifest.filter (fun initializer => initializer.groupType == CategoryGroupType.Calculator)).length

/-- The number of entries of group `type` among the first `k` entries of a manifest. -/
def precedingInGroup (manifest : List NavCategoryInitializer) (k : Nat)
    (type : CategoryGroupType) : Nat :=
  ((manifest.take k).filter (fun initializer => initializer.groupType == type)).length

/-- The C string a character buffer holds: its characters before the first NUL. -/
def cString (data : List Char) : List Char :=
  data.takeWhile (fun c => c != Char.ofNat 0)

/-- The framework enum `Windows::UI::Xaml::Visibility`. -/
inductive Visibility
  | Visible | Collapsed
  deriving DecidableEq, Repr

/-- The framework enum `Windows::Foundation::Collections::CollectionChange`. -/
inductive CollectionChange
  | Reset | ItemInserted | ItemRemoved | ItemChanged
  deriving DecidableEq, Repr

/-- An `EquationViewModel` as far as `OnEquationsVectorChanged` reads it: its `Expression`
and its `GraphEquation`, an object of the graph control's equation type `E` (declared
outside the sources at hand and taken as a parameter). -/
structure EquationViewModel (E : Type) where
  Expression : String
  GraphEquation : E
  deriving DecidableEq

/-- The part of `GraphingControl` that `OnEquationsVectorChanged` acts on: its equation
list and the number of `PlotGraph` calls made so far. -/
structure GraphingControlState (E : Type) where
  Equations : List E
  plotGraphCalls : Nat
  deriving DecidableEq

/-- The source's `GraphingCalculator::OnEquationsVectorChanged`. `sender` is the view
model's equation vector (`ViewModel->Equations`) as the event finds it, `Expression` reads
the expression of a graph equation; the state of the graph control afterwards, `none`
when a `GetAt` is out of range and throws. -/
def GraphingCalculator.OnEquationsVectorChanged {E : Type} (Expression : E → String)
    (sender : List (EquationViewModel E)) (change : CollectionChange) (Index : Nat)
    (GraphingControl : GraphingControlState E) : Option (GraphingControlState E) :=
  let plotted : GraphingControlState E :=
    { Equations :=
        sender.foldl (fun equations equationViewModel =>
          equations ++ [equationViewModel.GraphEquation]) [],
      plotGraphCalls := GraphingControl.plotGraphCalls + 1 }
  match change with
  | CollectionChange.ItemChanged => some GraphingControl
  | CollectionChange.ItemRemoved =>
    match GraphingControl.Equations[Index]? with
    | none => none
    | some itemToRemove =>
      if Expression itemToRemove = "" then
        some { GraphingControl with
                Equations := GraphingControl.Equations.eraseIdx Index }
      else some plotted
  | CollectionChange.ItemInserted =>
    match sender[Index]? with
    | none => none
    | some itemToAdd =>
      if itemToAdd.Expression = "" then
        some { GraphingControl with
                Equations := GraphingControl.Equations ++ [itemToAdd.GraphEquation] }
      else some plotted
  | CollectionChange.Reset => some plotted

/-- The source's `GraphingCalculator::ShouldDisplayPanel` (in C++ the operator `^` binds
tighter than the operator `||`). -/
def GraphingCalculator.ShouldDisplayPanel (isSmallState isEquationModeActivated
    isGraphPanel : Bool) : Visibility :=
  if (!isSmallState || (xor isEquationModeActivated isGraphPanel)) then Visibility.Visible
  else Visibility.Collapsed

/-- The graph equations of the view model's equations, in order. -/
def graphEquations {E : Type} (equations : List (EquationViewModel E)) : List E :=
  equations.map (fun equationViewModel => equationViewModel.GraphEquation)

/-- A run of successive calls of `IsGraphingModeEnabled`, one for each policy read of the
list and in its order, the cache being handed from each call to the next: for every call
the value it returns and the cache it leaves. -/
def callsOfIsGraphingModeEnabled (supportGraph : Bool) :
    List (Option Nat) → Option Bool → List (Bool × Option Bool)
  | [], _ => []
  | policy :: rest, cached =>
    IsGraphingModeEnabled supportGraph policy cached
      :: callsOfIsGraphingModeEnabled supportGraph rest
          (IsGraphingModeEnabled supportGraph policy cached).2

open NavCategory

theorem s_categoryManifest_fst (supportGraph : Bool) (policy : Option Nat)
    (cached : Option Bool) :
    (s_categoryManifest supportGraph policy cached).1
      = manifestOf supportGraph (IsGraphingModeEnabled supportGraph policy cached).1 := by
  cases supportGraph
  · rfl
  · simp only [s_categoryManifest, manifestOf, IsGraphingModeAvailable, if_true]
    generalize (IsGraphingModeEnabled true policy cached).1 = en
    cases en <;> rfl

theorem s_categoryManifest_snd (supportGraph : Bool) (policy : Option Nat)
    (cached : Option Bool) :
    (s_categoryManifest supportGraph policy cached).2
      = (IsGraphingModeEnabled supportGraph policy cached).2 := by
  cases supportGraph <;> rfl

/-- The round trip on a manifest, the Graphing exception written with the gate
`IsGraphingModeEnabled` as `Deserialize` calls it. -/
theorem roundtrip_manifestOf (supportGraph isEnabled : Bool) (policy : Option Nat)
    (cached : Option Bool) (mode : ViewMode)
    (hmode : mode ∈ viewModes (manifestOf supportGraph isEnabled)) :
    (Deserialize (manifestOf supportGraph isEnabled) supportGraph policy cached
        (PlatformObject.BoxInt (Serialize (manifestOf supportGraph isEnabled) mode))).1
      = if mode = ViewMode.Graphing
            ∧ (IsGraphingModeEnabled supportGraph policy cached).1 = false
        then ViewMode.None else mode := by
  unfold Deserialize
  generalize IsGraphingModeEnabled supportGraph policy cached = r
  rcases r with ⟨b, c⟩
  cases supportGraph <;> cases isEnabled <;> cases mode <;>
    first
    | exact absurd hmode (by decide)
    | rfl
    | (cases b <;> rfl)

/-- What the gate `IsGraphingModeEnabled` returns, in terms of the capability, the cache
and the policy read: it is false exactly when graphing is unavailable, or the cache holds
false, or the cache is empty and the policy read succeeds with the value 0. -/
theorem IsGraphingModeEnabled_false_iff (supportGraph : Bool) (policy : Option Nat)
    (cached : Option Bool) :
    (IsGraphingModeEnabled supportGraph policy cached).1 = false
      ↔ supportGraph = false ∨ cached = some false
          ∨ (cached = none ∧ policy = some 0) := by
  cases supportGraph
  · simp [IsGraphingModeEnabled, IsGraphingModeAvailable]
  · cases cached with
    | some value => cases value <;> simp [IsGraphingModeEnabled, IsGraphingModeAvailable]
    | none =>
      cases policy with
      | none => simp [IsGraphingModeEnabled, IsGraphingModeAvailable]
      | some allow =>
        cases allow <;> simp [IsGraphingModeEnabled, IsGraphingModeAvailable]

/-- Graphing is in the manifest only when graphing is available. -/
theorem Graphing_mem_manifestOf (supportGraph isEnabled : Bool)
    (h : ViewMode.Graphing ∈ viewModes (manifestOf supportGraph isEnabled)) :
    supportGraph = true := by
  cases supportGraph
  · cases isEnabled <;> exact absurd h (by decide)
  · rfl

/-- C1: for every view mode in the manifest (built with or without the Graphing entry),
`Deserialize` of the boxed `Serialize mode` gives the mode back, except for Graphing while
graphing is policy-disabled, where it gives `None`. Policy-disabled is: the call of
`IsGraphingModeEnabled` that `Deserialize` makes returns false, which for a mode of the
manifest happens exactly when the cache holds false, or the cache is empty and the policy
read yields the value 0. In a process started with an empty cache, whose manifest build
read the policy `policy0`, the exception is Graphing with `policy0` the value 0: a failed
read or any other value gives Graphing back. -/
theorem C1_serialize_deserialize_roundtrip (supportGraph : Bool)
    (policy0 policy : Option Nat) (cached0 cached : Option Bool) (mode : ViewMode)
    (hmode : mode ∈ viewModes (s_categoryManifest supportGraph policy0 cached0).1) :
    (Deserialize (s_categoryManifest supportGraph policy0 cached0).1 supportGraph policy cached
        (PlatformObject.BoxInt
          (Serialize (s_categoryManifest supportGraph policy0 cached0).1 mode))).1
      = (if mode = ViewMode.Graphing
            ∧ (IsGraphingModeEnabled supportGraph policy cached).1 = false
        then ViewMode.None else mode)
    ∧ (Deserialize (s_categoryManifest supportGraph policy0 cached0).1 supportGraph policy cached
        (PlatformObject.BoxInt
          (Serialize (s_categoryManifest supportGraph policy0 cached0).1 mode))).1
      = (if mode = ViewMode.Graphing
            ∧ (cached = some false ∨ (cached = none ∧ policy = some 0))
        then ViewMode.None else mode)
    ∧ (cached0 = none →
        (Deserialize (s_categoryManifest supportGraph policy0 cached0).1 supportGraph policy
          (s_categoryManifest supportGraph policy0 cached0).2
          (PlatformObject.BoxInt
            (Serialize (s_categoryManifest supportGraph policy0 cached0).1 mode))).1
        = (if mode = ViewMode.Graphing ∧ policy0 = some 0 then ViewMode.None else mode)) := by
  rw [s_categoryManifest_fst] at hmode
  have hround := fun (p : Option Nat) (c : Option Bool) =>
    roundtrip_manifestOf supportGraph (IsGraphingModeEnabled supportGraph policy0 cached0).1
      p c mode hmode
  have havail : mode = ViewMode.Graphing → supportGraph = true := fun hG =>
    Graphing_mem_manifestOf supportGraph _ (hG ▸ hmode)
  rw [s_categoryManifest_fst, s_categoryManifest_snd]
  refine ⟨hround policy cached, ?_, ?_⟩
  · rw [hround policy cached]
    by_cases hG : mode = ViewMode.Graphing
    · have hs := havail hG
      simp only [hG, true_and, IsGraphingModeEnabled_false_iff, hs, Bool.true_eq_false,
        false_or]
    · simp only [hG, false_and, if_false]
  · intro hc0
    subst hc0
    rw [hround policy _]
    by_cases hG : mode = ViewMode.Graphing
    · have hs := havail hG
      subst hs
      have hcache : (IsGraphingModeEnabled true policy0 none).2
          = some (IsGraphingModeEnabled true policy0 none).1 := by
        cases policy0 <;> rfl
      have hzero : (IsGraphingModeEnabled true policy0 none).1 = false ↔ policy0 = some 0 := by
        rw [IsGraphingModeEnabled_false_iff]
        simp
      rw [hcache]
      simp only [hG, true_and, IsGraphingModeEnabled_false_iff, Bool.true_eq_false, false_or,
        Option.some.injEq, hzero, reduceCtorEq, false_and, or_false]
    · simp only [hG, false_and, if_false]

theorem C1_witness :
    ViewMode.Graphing ∈ viewModes (s_categoryManifest true (some 0) none).1
    ∧ (Deserialize (s_categoryManifest true (some 0) none).1 true (some 1)
        (s_categoryManifest true (some 0) none).2
        (PlatformObject.BoxInt
          (Serialize (s_categoryManifest true (some 0) none).1 ViewMode.Graphing))).1
      = (if ViewMode.Graphing = ViewMode.Graphing ∧ (some 0 : Option Nat) = some 0
          then ViewMode.None else ViewMode.Graphing) :=
  ⟨by decide,
   (C1_serialize_deserialize_roundtrip true (some 0) (some 1) none none
     ViewMode.Graphing (by decide)).2.2 rfl⟩

/-- C2: `Serialize` gives each manifest mode the fixed id of its descriptor (Standard 0,
Scientific 1, Programmer 2, Date 3, Volume 4, Length 5, Weight 6, Temperature 7, Energy 8,
Area 9, Speed 10, Time 11, Power 12, Data 13, Pressure 14, Angle 15, Currency 16,
Graphing 17), the same whether or not the Graphing entry was inserted, and -1 to every
mode that is not in the manifest. -/
theorem C2_serialize_fixed_ids (supportGraph : Bool) (policy : Option Nat)
    (cached : Option Bool) :
    (List.map (Serialize (s_categoryManifest supportGraph policy cached).1)
        [ViewMode.Standard, ViewMode.Scientific, ViewMode.Programmer, ViewMode.Date,
         ViewMode.Volume, ViewMode.Length, ViewMode.Weight, ViewMode.Temperature,
         ViewMode.Energy, ViewMode.Area, ViewMode.Speed, ViewMode.Time, ViewMode.Power,
         ViewMode.Data, ViewMode.Pressure, ViewMode.Angle, ViewMode.Currency]
      = [0, 1, 2, 3, 4, 5, 6, 7, 8, 9, 10, 11, 12, 13, 14, 15, 16])
    ∧ (ViewMode.Graphing ∈ viewModes (s_categoryManifest supportGraph policy cached).1 →
        Serialize (s_categoryManifest supportGraph policy cached).1 ViewMode.Graphing = 17)
    ∧ (∀ d ∈ (s_categoryManifest supportGraph policy cached).1,
        Serialize (s_categoryManifest supportGraph policy cached).1 d.viewMode
          = d.serializationId)
    ∧ (∀ mode, mode ∉ viewModes (s_categoryManifest supportGraph policy cached).1 →
        Serialize (s_categoryManifest supportGraph policy cached).1 mode = -1) := by
  rw [s_categoryManifest_fst]
  generalize (IsGraphingModeEnabled supportGraph policy cached).1 = en
  refine ⟨?_, ?_, ?_, ?_⟩
  · cases supportGraph <;> cases en <;> rfl
  · cases supportGraph <;> cases en <;> decide
  · cases supportGraph <;> cases en <;> decide
  · intro mode
    cases supportGraph <;> cases en <;> cases mode <;> decide

theorem C2_witness :
    Serialize (s_categoryManifest true none none).1 ViewMode.Graphing = 17
    ∧ Serialize (s_categoryManifest false none none).1 ViewMode.Graphing = -1
    ∧ Serialize (s_categoryManifest false none none).1 ViewMode.None = -1 :=
  ⟨(C2_serialize_fixed_ids true none none).2.1 (by decide),
   (C2_serialize_fixed_ids false none none).2.2.2 ViewMode.Graphing (by decide),
   (C2_serialize_fixed_ids false none none).2.2.2 ViewMode.None (by decide)⟩

/-- The descriptor found by its own serialization id is the descriptor itself. -/
theorem find_serializationId_manifestOf (supportGraph isEnabled : Bool) :
    ∀ d ∈ manifestOf supportGraph isEnabled,
      (manifestOf supportGraph isEnabled).find?
          (fun initializer => initializer.serializationId == d.serializationId) = some d := by
  cases supportGraph <;> cases isEnabled <;> decide

/-- The descriptor found by its own view mode is the descriptor itself. -/
theorem find_viewMode_manifestOf (supportGraph isEnabled : Bool) :
    ∀ d ∈ manifestOf supportGraph isEnabled,
      (manifestOf supportGraph isEnabled).find?
          (fun initializer => initializer.viewMode == d.viewMode) = some d := by
  cases supportGraph <;> cases isEnabled <;> decide

/-- C3: serialization ids are unique in the manifest: two distinct manifest modes have
different `Serialize` values, and no manifest mode serializes to the sentinel -1. -/
theorem C3_serialization_ids_unique (supportGraph : Bool) (policy : Option Nat)
    (cached : Option Bool) :
    (∀ m1 ∈ viewModes (s_categoryManifest supportGraph policy cached).1,
      ∀ m2 ∈ viewModes (s_categoryManifest supportGraph policy cached).1,
        m1 ≠ m2 →
          Serialize (s_categoryManifest supportGraph policy cached).1 m1
            ≠ Serialize (s_categoryManifest supportGraph policy cached).1 m2)
    ∧ (∀ m ∈ viewModes (s_categoryManifest supportGraph policy cached).1,
        Serialize (s_categoryManifest supportGraph policy cached).1 m ≠ -1)
    ∧ ((s_categoryManifest supportGraph policy cached).1.map
        (fun initializer => initializer.serializationId)).Nodup := by
  rw [s_categoryManifest_fst]
  generalize (IsGraphingModeEnabled supportGraph policy cached).1 = en
  refine ⟨?_, ?_, ?_⟩
  · cases supportGraph <;> cases en <;> decide
  · cases supportGraph <;> cases en <;> decide
  · cases supportGraph <;> cases en <;> decide

theorem C3_witness :
    Serialize (s_categoryManifest true none none).1 ViewMode.Graphing
      ≠ Serialize (s_categoryManifest true none none).1 ViewMode.Currency
    ∧ Serialize (s_categoryManifest true none none).1 ViewMode.Standard ≠ -1 :=
  ⟨(C3_serialization_ids_unique true none none).1 ViewMode.Graphing (by decide)
      ViewMode.Currency (by decide) (by decide),
   (C3_serialization_ids_unique true none none).2.1 ViewMode.Standard (by decide)⟩

/-- The serialization ids of the manifest, in manifest order. -/
theorem serializationIds_manifestOf (supportGraph isEnabled : Bool) :
    (manifestOf supportGraph isEnabled).map (fun initializer => initializer.serializationId)
      = [0, 1] ++ (if supportGraph then [17] else [])
          ++ [2, 3, 16, 4, 5, 6, 7, 8, 9, 10, 11, 12, 13, 14, 15] := by
  cases supportGraph <;> cases isEnabled <;> rfl

/-- On a boxed integer `Deserialize` is the lookup by id followed by the Graphing check. -/
theorem Deserialize_BoxInt (manifest : List NavCategoryInitializer) (supportGraph : Bool)
    (policy : Option Nat) (cached : Option Bool) (v : Int) :
    (Deserialize manifest supportGraph policy cached (PlatformObject.BoxInt v)).1
      = match manifest.find? (fun initializer => initializer.serializationId == v) with
        | some iter =>
          if iter.viewMode = ViewMode.Graphing
              ∧ (IsGraphingModeEnabled supportGraph policy cached).1 = false
          then ViewMode.None else iter.viewMode
        | none => ViewMode.None := by
  unfold Deserialize
  dsimp only
  generalize manifest.find? (fun initializer => initializer.serializationId == v) = found
  cases found with
  | none => rfl
  | some iter =>
    by_cases hg : iter.viewMode = ViewMode.Graphing
    · cases he : (IsGraphingModeEnabled supportGraph policy cached).1 <;> simp [hg, he]
    · simp [hg]

/-- C4: `Deserialize` is total and returns `ViewMode.None` for every stored value that is
not a boxed integer and for every boxed integer that is not the id of a manifest
descriptor (the integers outside 0..17, and 17 when the Graphing entry is absent); for the
id of a manifest descriptor it returns that descriptor's mode, subject to the Graphing
check. -/
theorem C4_deserialize_invalid_is_None (supportGraph : Bool) (policy0 policy : Option Nat)
    (cached0 cached : Option Bool) :
    (∀ obj, (∀ v, obj ≠ PlatformObject.BoxInt v) →
        (Deserialize (s_categoryManifest supportGraph policy0 cached0).1 supportGraph policy
          cached obj).1 = ViewMode.None)
    ∧ (∀ v : Int,
        v ∉ (s_categoryManifest supportGraph policy0 cached0).1.map
              (fun initializer => initializer.serializationId) →
        (Deserialize (s_categoryManifest supportGraph policy0 cached0).1 supportGraph policy
          cached (PlatformObject.BoxInt v)).1 = ViewMode.None)
    ∧ (∀ v : Int,
        v ∉ (s_categoryManifest supportGraph policy0 cached0).1.map
              (fun initializer => initializer.serializationId)
          ↔ (v < 0 ∨ 17 < v
              ∨ (v = 17
                  ∧ ViewMode.Graphing
                      ∉ viewModes (s_categoryManifest supportGraph policy0 cached0).1)))
    ∧ (∀ d ∈ (s_categoryManifest supportGraph policy0 cached0).1,
        (Deserialize (s_categoryManifest supportGraph policy0 cached0).1 supportGraph policy
          cached (PlatformObject.BoxInt d.serializationId)).1
          = if d.viewMode = ViewMode.Graphing
                ∧ (IsGraphingModeEnabled supportGraph policy cached).1 = false
            then ViewMode.None else d.viewMode) := by
  rw [s_categoryManifest_fst]
  generalize (IsGraphingModeEnabled supportGraph policy0 cached0).1 = en
  refine ⟨?_, ?_, ?_, ?_⟩
  · intro obj hobj
    cases obj with
    | BoxInt v => exact absurd rfl (hobj v)
    | nullptr => rfl
    | BoxBool b => rfl
    | BoxString t => rfl
    | Other t => rfl
  · intro v hv
    rw [Deserialize_BoxInt]
    have hnone : (manifestOf supportGraph en).find?
        (fun initializer => initializer.serializationId == v) = none := by
      rw [List.find?_eq_none]
      intro x hx hxv
      exact hv (List.mem_map.2 ⟨x, hx, by simpa using hxv⟩)
    rw [hnone]
  · intro v
    have hG : ViewMode.Graphing ∈ viewModes (manifestOf supportGraph en)
        ↔ supportGraph = true := by
      cases supportGraph <;> cases en <;> decide
    rw [serializationIds_manifestOf, hG]
    cases supportGraph <;> simp <;> omega
  · intro d hd
    rw [Deserialize_BoxInt, find_serializationId_manifestOf supportGraph en d hd]

theorem C4_witness :
    (Deserialize (s_categoryManifest false none none).1 false none none
        (PlatformObject.BoxString "17")).1 = ViewMode.None
    ∧ (Deserialize (s_categoryManifest false none none).1 false none none
        (PlatformObject.BoxInt 17)).1 = ViewMode.None
    ∧ (Deserialize (s_categoryManifest true none none).1 true none none
        (PlatformObject.BoxInt 18)).1 = ViewMode.None :=
  ⟨(C4_deserialize_invalid_is_None false none none none none).1
      (PlatformObject.BoxString "17") (fun v h => by cases h),
   (C4_deserialize_invalid_is_None false none none none none).2.1 17 (by decide),
   (C4_deserialize_invalid_is_None true none none none none).2.1 18 (by decide)⟩

/-- With the Graphing entry in the manifest, `Deserialize` of the boxed 17 is decided by
`IsGraphingModeEnabled` alone. -/
theorem Deserialize_17 (isEnabled : Bool) (policy : Option Nat) (cached : Option Bool) :
    (Deserialize (manifestOf true isEnabled) true policy cached (PlatformObject.BoxInt 17)).1
      = if (IsGraphingModeEnabled true policy cached).1 then ViewMode.Graphing
        else ViewMode.None := by
  rw [Deserialize_BoxInt]
  generalize (IsGraphingModeEnabled true policy cached).1 = b
  cases isEnabled <;> cases b <;> rfl

/-- Once the manifest has been built with graphing available, the cache holds the value
of the first evaluation. -/
theorem cache_after_manifest (policy : Option Nat) (cached : Option Bool) :
    (s_categoryManifest true policy cached).2
      = some (IsGraphingModeEnabled true policy cached).1 := by
  rw [s_categoryManifest_snd]
  cases cached with
  | some value => rfl
  | none => cases policy <;> rfl

/-- C5: with graphing available the Graphing descriptor is in the manifest and
`Serialize Graphing` is 17 whatever the policy says; `Deserialize` of the boxed 17 is
`None` when `IsGraphingModeEnabled` reports graphing disabled and `Graphing` when it reports
it enabled; in a process started with an empty cache under a policy value `v`, that is
`None` for `v = 0` and `Graphing` otherwise. -/
theorem C5_graphing_policy_disabled (policy0 policy : Option Nat)
    (cached0 cached : Option Bool) :
    ViewMode.Graphing ∈ viewModes (s_categoryManifest true policy0 cached0).1
    ∧ Serialize (s_categoryManifest true policy0 cached0).1 ViewMode.Graphing = 17
    ∧ ((IsGraphingModeEnabled true policy cached).1 = false →
        (Deserialize (s_categoryManifest true policy0 cached0).1 true policy cached
          (PlatformObject.BoxInt 17)).1 = ViewMode.None)
    ∧ ((IsGraphingModeEnabled true policy cached).1 = true →
        (Deserialize (s_categoryManifest true policy0 cached0).1 true policy cached
          (PlatformObject.BoxInt 17)).1 = ViewMode.Graphing)
    ∧ (∀ v : Nat,
        (Deserialize (s_categoryManifest true (some v) none).1 true (some v)
          (s_categoryManifest true (some v) none).2 (PlatformObject.BoxInt 17)).1
          = if v = 0 then ViewMode.None else ViewMode.Graphing) := by
  refine ⟨?_, ?_, ?_, ?_, ?_⟩
  · rw [s_categoryManifest_fst]
    generalize (IsGraphingModeEnabled true policy0 cached0).1 = en
    cases en <;> decide
  · rw [s_categoryManifest_fst]
    generalize (IsGraphingModeEnabled true policy0 cached0).1 = en
    cases en <;> decide
  · intro h
    rw [s_categoryManifest_fst, Deserialize_17, h]
    rfl
  · intro h
    rw [s_categoryManifest_fst, Deserialize_17, h]
    rfl
  · intro v
    rw [s_categoryManifest_fst, Deserialize_17, cache_after_manifest]
    cases v with
    | zero => rfl
    | succ n => rfl

theorem C5_witness :
    (Deserialize (s_categoryManifest true (some 0) none).1 true (some 0) (some false)
        (PlatformObject.BoxInt 17)).1 = ViewMode.None
    ∧ (Deserialize (s_categoryManifest true (some 1) none).1 true (some 1) (some true)
        (PlatformObject.BoxInt 17)).1 = ViewMode.Graphing :=
  ⟨(C5_graphing_policy_disabled (some 0) (some 0) none (some false)).2.2.1 (by decide),
   (C5_graphing_policy_disabled (some 1) (some 1) none (some true)).2.2.2.1 (by decide)⟩

/-- C6, as stated, fails: the manifest is built from an empty cache while the policy
value is 1 (graphing enabled), the policy value is 0 (graphing disabled) when
`Deserialize` is called on the boxed 17 in the state the build left, and the result is
`Graphing`, not `None`. -/
theorem C6_counterexample :
    (IsGraphingModeEnabled true (some 1) none).1 = true
    ∧ ViewMode.Graphing ∈ viewModes (s_categoryManifest true (some 1) none).1
    ∧ (IsGraphingModeEnabled true (some 0) none).1 = false
    ∧ (Deserialize (s_categoryManifest true (some 1) none).1 true (some 0)
        (s_categoryManifest true (some 1) none).2 (PlatformObject.BoxInt 17)).1
        = ViewMode.Graphing
    ∧ (Deserialize (s_categoryManifest true (some 1) none).1 true (some 0)
        (s_categoryManifest true (some 1) none).2 (PlatformObject.BoxInt 17)).1
        ≠ ViewMode.None := by
  decide

/-- C6, amended: `Deserialize` calls `IsGraphingModeEnabled` at the time of the call, and
that call returns the value cached by the first evaluation. In the state the manifest
build leaves (Graphing descriptor present), `Deserialize` of the boxed 17 returns
`Graphing` exactly when the first evaluation enabled graphing, which is the descriptor's
`isEnabled` flag, and `None` otherwise, whatever the policy read yields at the call; the
cache is left as it was. -/
theorem C6_deserialize_uses_cached_policy (policy0 policy : Option Nat)
    (cached0 : Option Bool) :
    Deserialize (s_categoryManifest true policy0 cached0).1 true policy
        (s_categoryManifest true policy0 cached0).2 (PlatformObject.BoxInt 17)
      = (if (IsGraphingModeEnabled true policy0 cached0).1 then ViewMode.Graphing
          else ViewMode.None,
         (s_categoryManifest true policy0 cached0).2)
    ∧ (∀ d ∈ (s_categoryManifest true policy0 cached0).1, d.viewMode = ViewMode.Graphing →
        d.isEnabled = (IsGraphingModeEnabled true policy0 cached0).1)
    ∧ (Deserialize (s_categoryManifest true policy0 cached0).1 true policy
        (s_categoryManifest true policy0 cached0).2 (PlatformObject.BoxInt 17)).1
      = (Deserialize (s_categoryManifest true policy0 cached0).1 true policy0
        (s_categoryManifest true policy0 cached0).2 (PlatformObject.BoxInt 17)).1 := by
  have hfst := s_categoryManifest_fst true policy0 cached0
  have hsnd := cache_after_manifest policy0 cached0
  rw [hfst, hsnd]
  generalize (IsGraphingModeEnabled true policy0 cached0).1 = en
  refine ⟨?_, ?_, ?_⟩
  · cases en <;> rfl
  · cases en <;> decide
  · cases en <;> rfl

/-- C7: `IsValidViewMode mode` is true exactly when some manifest descriptor has that view
mode, and for a mode that no descriptor has (the mode `None` is always one) every lookup
returns its sentinel: `Serialize` -1, `GetFriendlyName` "None", `GetGroupType` `None`,
`GetPosition`, `GetIndex` and `GetFlatIndex` -1, `GetIndexInGroup` -1 for every group,
`IsViewModePreview` false. -/
theorem C7_lookups_of_absent_mode (supportGraph : Bool) (policy : Option Nat)
    (cached : Option Bool) (mode : ViewMode) :
    (IsValidViewMode (s_categoryManifest supportGraph policy cached).1 mode = true
        ↔ ∃ d ∈ (s_categoryManifest supportGraph policy cached).1, d.viewMode = mode)
    ∧ ((¬ ∃ d ∈ (s_categoryManifest supportGraph policy cached).1, d.viewMode = mode) →
        IsValidViewMode (s_categoryManifest supportGraph policy cached).1 mode = false
        ∧ Serialize (s_categoryManifest supportGraph policy cached).1 mode = -1
        ∧ GetFriendlyName (s_categoryManifest supportGraph policy cached).1 mode = "None"
        ∧ GetGroupType (s_categoryManifest supportGraph policy cached).1 mode
            = CategoryGroupType.None
        ∧ GetPosition (s_categoryManifest supportGraph policy cached).1 mode = -1
        ∧ GetIndex (s_categoryManifest supportGraph policy cached).1 mode = -1
        ∧ GetFlatIndex (s_categoryManifest supportGraph policy cached).1 mode = -1
        ∧ (∀ type, GetIndexInGroup (s_categoryManifest supportGraph policy cached).1 mode type
            = -1)
        ∧ IsViewModePreview (s_categoryManifest supportGraph policy cached).1 mode = false)
    ∧ (¬ ∃ d ∈ (s_categoryManifest supportGraph policy cached).1,
        d.viewMode = ViewMode.None) := by
  rw [s_categoryManifest_fst]
  generalize (IsGraphingModeEnabled supportGraph policy cached).1 = en
  refine ⟨?_, ?_, ?_⟩
  · cases supportGraph <;> cases en <;> cases mode <;> decide
  · intro h
    cases supportGraph <;> cases en <;> cases mode <;>
      first
      | exact absurd h (by decide)
      | exact ⟨by decide, by decide, by decide, by decide, by decide, by decide, by decide,
          fun type => by cases type <;> decide, by decide⟩
  · cases supportGraph <;> cases en <;> decide

theorem C7_witness :
    GetFriendlyName (s_categoryManifest false none none).1 ViewMode.Graphing = "None"
    ∧ GetIndexInGroup (s_categoryManifest true none none).1 ViewMode.None
        CategoryGroupType.Calculator = -1 :=
  ⟨((C7_lookups_of_absent_mode false none none ViewMode.Graphing).2.1 (by decide)).2.2.1,
   ((C7_lookups_of_absent_mode true none none ViewMode.None).2.1
      (by decide)).2.2.2.2.2.2.2.1 CategoryGroupType.Calculator⟩

/-- C8: the view modes of the manifest are, in order, Standard, Scientific, then Graphing
if and only if the capability check reports graphing available, then Programmer, Date,
Currency, Volume, Length, Weight, Temperature, Energy, Area, Speed, Time, Power, Data,
Pressure, Angle: 18 entries with Graphing and 17 without, and the manifest with Graphing
is the manifest without it with the one entry inserted after Scientific (the other
descriptors agree in every field but the accelerator key and access-key literal). -/
theorem C8_manifest_sequence (supportGraph : Bool) (policy policy1 : Option Nat)
    (cached cached1 : Option Bool) :
    viewModes (s_categoryManifest supportGraph policy cached).1
      = [ViewMode.Standard, ViewMode.Scientific]
          ++ (if IsGraphingModeAvailable supportGraph then [ViewMode.Graphing] else [])
          ++ [ViewMode.Programmer, ViewMode.Date, ViewMode.Currency, ViewMode.Volume,
              ViewMode.Length, ViewMode.Weight, ViewMode.Temperature, ViewMode.Energy,
              ViewMode.Area, ViewMode.Speed, ViewMode.Time, ViewMode.Power, ViewMode.Data,
              ViewMode.Pressure, ViewMode.Angle]
    ∧ (ViewMode.Graphing ∈ viewModes (s_categoryManifest supportGraph policy cached).1
        ↔ IsGraphingModeAvailable supportGraph = true)
    ∧ (s_categoryManifest supportGraph policy cached).1.length
        = (if IsGraphingModeAvailable supportGraph then 18 else 17)
    ∧ viewModes (s_categoryManifest true policy cached).1
        = (viewModes (s_categoryManifest false policy1 cached1).1).take 2
            ++ [ViewMode.Graphing]
            ++ (viewModes (s_categoryManifest false policy1 cached1).1).drop 2
    ∧ ((s_categoryManifest true policy cached).1.filter
          (fun initializer => initializer.viewMode != ViewMode.Graphing)).map fixedFields
        = (s_categoryManifest false policy1 cached1).1.map fixedFields := by
  simp only [s_categoryManifest_fst]
  generalize (IsGraphingModeEnabled supportGraph policy cached).1 = en
  generalize (IsGraphingModeEnabled true policy cached).1 = en1
  generalize (IsGraphingModeEnabled false policy1 cached1).1 = en2
  refine ⟨?_, ?_, ?_, ?_, ?_⟩
  · cases supportGraph <;> cases en <;> rfl
  · cases supportGraph <;> cases en <;> decide
  · cases supportGraph <;> cases en <;> rfl
  · cases en1 <;> cases en2 <;> rfl
  · cases en1 <;> cases en2 <;> rfl

/-- C9: when graphing is unavailable the manifest has no Graphing entry:
`IsValidViewMode Graphing` is false, `Serialize Graphing` is -1, `Deserialize` of the boxed
17 is `None`, no virtual key resolves to Graphing, and `Number3` resolves to Programmer. -/
theorem C9_graphing_unavailable (policy0 policy : Option Nat) (cached0 cached : Option Bool) :
    ViewMode.Graphing ∉ viewModes (s_categoryManifest false policy0 cached0).1
    ∧ IsValidViewMode (s_categoryManifest false policy0 cached0).1 ViewMode.Graphing = false
    ∧ Serialize (s_categoryManifest false policy0 cached0).1 ViewMode.Graphing = -1
    ∧ (Deserialize (s_categoryManifest false policy0 cached0).1 false policy cached
        (PlatformObject.BoxInt 17)).1 = ViewMode.None
    ∧ (∀ virtualKey,
        GetViewModeForVirtualKey (s_categoryManifest false policy0 cached0).1 virtualKey
          ≠ ViewMode.Graphing)
    ∧ GetViewModeForVirtualKey (s_categoryManifest false policy0 cached0).1
        MyVirtualKey.Number3 = ViewMode.Programmer := by
  rw [s_categoryManifest_fst]
  generalize (IsGraphingModeEnabled false policy0 cached0).1 = en
  refine ⟨?_, ?_, ?_, ?_, ?_, ?_⟩
  · cases en <;> decide
  · cases en <;> decide
  · cases en <;> decide
  · cases en <;> rfl
  · intro virtualKey
    cases virtualKey with
    | Other code =>
      have h : GetViewModeForVirtualKey (manifestOf false en) (MyVirtualKey.Other code)
          = ViewMode.None := by cases en <;> rfl
      rw [h]
      decide
    | _ => cases en <;> decide
  · cases en <;> decide

/-- C10: in both configurations the numeric accelerator of a Calculator-group mode is its
1-based manifest position: for `i` from 1 to the number of Calculator-group entries the
mode bound to `Number_i` has `GetPosition` `i`, and its descriptor is a Calculator-group
descriptor whose access-key literal is the decimal text of `i`. With Graphing the keys 1
to 5 give Standard, Scientific, Graphing, Programmer, Date; without it the keys 1 to 4
give Standard, Scientific, Programmer, Date. -/
theorem C10_accelerator_is_position (supportGraph : Bool) (policy : Option Nat)
    (cached : Option Bool) (i : Nat) (h1 : 1 ≤ i)
    (h2 : i ≤ calculatorCount (s_categoryManifest supportGraph policy cached).1) :
    GetPosition (s_categoryManifest supportGraph policy cached).1
        (GetViewModeForVirtualKey (s_categoryManifest supportGraph policy cached).1
          (numberKey i)) = (i : Int)
    ∧ (∃ d ∈ (s_categoryManifest supportGraph policy cached).1,
        d.viewMode = GetViewModeForVirtualKey (s_categoryManifest supportGraph policy cached).1
          (numberKey i)
        ∧ d.groupType = CategoryGroupType.Calculator
        ∧ d.virtualKey = numberKey i
        ∧ d.accessKey = some (toString i))
    ∧ calculatorCount (s_categoryManifest supportGraph policy cached).1
        = (if supportGraph then 5 else 4)
    ∧ (supportGraph = true →
        List.map (GetViewModeForVirtualKey (s_categoryManifest supportGraph policy cached).1)
            [MyVirtualKey.Number1, MyVirtualKey.Number2, MyVirtualKey.Number3,
             MyVirtualKey.Number4, MyVirtualKey.Number5]
          = [ViewMode.Standard, ViewMode.Scientific, ViewMode.Graphing, ViewMode.Programmer,
             ViewMode.Date])
    ∧ (supportGraph = false →
        List.map (GetViewModeForVirtualKey (s_categoryManifest supportGraph policy cached).1)
            [MyVirtualKey.Number1, MyVirtualKey.Number2, MyVirtualKey.Number3,
             MyVirtualKey.Number4]
          = [ViewMode.Standard, ViewMode.Scientific, ViewMode.Programmer, ViewMode.Date]) := by
  rw [s_categoryManifest_fst] at h2 ⊢
  generalize (IsGraphingModeEnabled supportGraph policy cached).1 = en at h2 ⊢
  cases supportGraph <;> cases en
  · have h3 : i ≤ 4 := h2
    interval_cases i <;> decide
  · have h3 : i ≤ 4 := h2
    interval_cases i <;> decide
  · have h3 : i ≤ 5 := h2
    interval_cases i <;> decide
  · have h3 : i ≤ 5 := h2
    interval_cases i <;> decide

theorem C10_witness :
    (1 ≤ 3 ∧ 3 ≤ calculatorCount (s_categoryManifest true none none).1)
    ∧ GetPosition (s_categoryManifest true none none).1
        (GetViewModeForVirtualKey (s_categoryManifest true none none).1 (numberKey 3))
        = ((3 : Nat) : Int) :=
  ⟨by decide, (C10_accelerator_is_position true none none 3 (by decide) (by decide)).1⟩

/-- C11, the code at the failing input: `GetViewModeForVirtualKey` compares the key with
the `virtualKey` field of every descriptor, also of those whose field is
`MyVirtualKey.None`, so for the key `MyVirtualKey.None` it returns Currency (the first
descriptor without accelerator) in both configurations, although
`GetCategoryAcceleratorKeys` does not count `MyVirtualKey.None` as an accelerator. For
every other key that is not an accelerator (such as `Number5` without Graphing) it
returns `None`. -/
theorem C11_none_key_resolves_to_Currency (supportGraph : Bool) (policy : Option Nat)
    (cached : Option Bool) :
    GetViewModeForVirtualKey (s_categoryManifest supportGraph policy cached).1
        MyVirtualKey.None = ViewMode.Currency
    ∧ MyVirtualKey.None
        ∉ GetCategoryAcceleratorKeys (s_categoryManifest supportGraph policy cached).1
    ∧ (∀ virtualKey, virtualKey ≠ MyVirtualKey.None →
        virtualKey ∉ GetCategoryAcceleratorKeys (s_categoryManifest supportGraph policy cached).1 →
        GetViewModeForVirtualKey (s_categoryManifest supportGraph policy cached).1 virtualKey
          = ViewMode.None)
    ∧ (supportGraph = false →
        GetViewModeForVirtualKey (s_categoryManifest supportGraph policy cached).1
          MyVirtualKey.Number5 = ViewMode.None) := by
  rw [s_categoryManifest_fst]
  generalize (IsGraphingModeEnabled supportGraph policy cached).1 = en
  refine ⟨?_, ?_, ?_, ?_⟩
  · cases supportGraph <;> cases en <;> decide
  · cases supportGraph <;> cases en <;> decide
  · intro virtualKey
    cases virtualKey with
    | Other code =>
      intro _ _
      cases supportGraph <;> cases en <;> rfl
    | _ => cases supportGraph <;> cases en <;> decide
  · cases supportGraph <;> cases en <;> decide

/-- C12: `GetCategoryAcceleratorKeys` returns the accelerator keys of the descriptors that
define one, in manifest order and without duplicates: `Number1` to `Number5` when Graphing
is in the manifest, `Number1` to `Number4` when it is not; `MyVirtualKey.None` is never in
the result. -/
theorem C12_accelerator_keys (supportGraph : Bool) (policy : Option Nat)
    (cached : Option Bool) :
    GetCategoryAcceleratorKeys (s_categoryManifest supportGraph policy cached).1
      = (if ViewMode.Graphing ∈ viewModes (s_categoryManifest supportGraph policy cached).1
          then [MyVirtualKey.Number1, MyVirtualKey.Number2, MyVirtualKey.Number3,
                MyVirtualKey.Number4, MyVirtualKey.Number5]
          else [MyVirtualKey.Number1, MyVirtualKey.Number2, MyVirtualKey.Number3,
                MyVirtualKey.Number4])
    ∧ GetCategoryAcceleratorKeys (s_categoryManifest supportGraph policy cached).1
      = ((s_categoryManifest supportGraph policy cached).1.map
          (fun initializer => initializer.virtualKey)).filter
            (fun virtualKey => virtualKey != MyVirtualKey.None)
    ∧ (GetCategoryAcceleratorKeys (s_categoryManifest supportGraph policy cached).1).Nodup
    ∧ MyVirtualKey.None
        ∉ GetCategoryAcceleratorKeys (s_categoryManifest supportGraph policy cached).1 := by
  rw [s_categoryManifest_fst]
  generalize (IsGraphingModeEnabled supportGraph policy cached).1 = en
  refine ⟨?_, ?_, ?_, ?_⟩
  · cases supportGraph <;> cases en <;> decide
  · cases supportGraph <;> cases en <;> decide
  · cases supportGraph <;> cases en <;> decide
  · cases supportGraph <;> cases en <;> decide

/-- C13: the `k`-th manifest entry (counted from 1) has `GetPosition` `k`, so `GetPosition`
starts at 1 and increases by one along the manifest, and for every manifest mode
`GetIndex` is `GetPosition` minus 1. -/
theorem C13_position_is_manifest_order (supportGraph : Bool) (policy : Option Nat)
    (cached : Option Bool) :
    (viewModes (s_categoryManifest supportGraph policy cached).1).map
        (GetPosition (s_categoryManifest supportGraph policy cached).1)
      = (List.range (s_categoryManifest supportGraph policy cached).1.length).map
          (fun k => (k : Int) + 1)
    ∧ (∀ mode ∈ viewModes (s_categoryManifest supportGraph policy cached).1,
        GetIndex (s_categoryManifest supportGraph policy cached).1 mode
          = GetPosition (s_categoryManifest supportGraph policy cached).1 mode - 1) := by
  rw [s_categoryManifest_fst]
  generalize (IsGraphingModeEnabled supportGraph policy cached).1 = en
  refine ⟨?_, ?_⟩
  · cases supportGraph <;> cases en <;> decide
  · cases supportGraph <;> cases en <;> decide

/-- C14: for the manifest entry at index `k`, with mode `m` and group `g = GetGroupType m`,
`GetIndexInGroup m g` is the number of entries of group `g` among the `k` entries before
it; so it is 0 for the first entry of each group, differs for distinct modes of one group,
and is ordered as the manifest is. -/
theorem C14_index_in_group (supportGraph : Bool) (policy : Option Nat)
    (cached : Option Bool) :
    (∀ p ∈ (s_categoryManifest supportGraph policy cached).1.enum,
        GetIndexInGroup (s_categoryManifest supportGraph policy cached).1 p.2.viewMode
            (GetGroupType (s_categoryManifest supportGraph policy cached).1 p.2.viewMode)
          = (precedingInGroup (s_categoryManifest supportGraph policy cached).1 p.1
              (GetGroupType (s_categoryManifest supportGraph policy cached).1 p.2.viewMode)
              : Int))
    ∧ GetIndexInGroup (s_categoryManifest supportGraph policy cached).1 ViewMode.Standard
        CategoryGroupType.Calculator = 0
    ∧ GetIndexInGroup (s_categoryManifest supportGraph policy cached).1 ViewMode.Currency
        CategoryGroupType.Converter = 0
    ∧ (∀ m1 ∈ viewModes (s_categoryManifest supportGraph policy cached).1,
        ∀ m2 ∈ viewModes (s_categoryManifest supportGraph policy cached).1,
          GetGroupType (s_categoryManifest supportGraph policy cached).1 m1
            = GetGroupType (s_categoryManifest supportGraph policy cached).1 m2 →
          (m1 ≠ m2 →
            GetIndexInGroup (s_categoryManifest supportGraph policy cached).1 m1
                (GetGroupType (s_categoryManifest supportGraph policy cached).1 m1)
              ≠ GetIndexInGroup (s_categoryManifest supportGraph policy cached).1 m2
                (GetGroupType (s_categoryManifest supportGraph policy cached).1 m2))
          ∧ (GetPosition (s_categoryManifest supportGraph policy cached).1 m1
                < GetPosition (s_categoryManifest supportGraph policy cached).1 m2
              ↔ GetIndexInGroup (s_categoryManifest supportGraph policy cached).1 m1
                  (GetGroupType (s_categoryManifest supportGraph policy cached).1 m1)
                < GetIndexInGroup (s_categoryManifest supportGraph policy cached).1 m2
                  (GetGroupType (s_categoryManifest supportGraph policy cached).1 m2))) := by
  rw [s_categoryManifest_fst]
  generalize (IsGraphingModeEnabled supportGraph policy cached).1 = en
  refine ⟨?_, ?_, ?_, ?_⟩
  · cases supportGraph <;> cases en <;> decide
  · cases supportGraph <;> cases en <;> decide
  · cases supportGraph <;> cases en <;> decide
  · cases supportGraph <;> cases en <;> decide

theorem C14_witness :
    GetIndexInGroup (s_categoryManifest true none none).1 ViewMode.Programmer
        (GetGroupType (s_categoryManifest true none none).1 ViewMode.Programmer)
      ≠ GetIndexInGroup (s_categoryManifest true none none).1 ViewMode.Date
        (GetGroupType (s_categoryManifest true none none).1 ViewMode.Date) :=
  ((C14_index_in_group true none none).2.2.2 ViewMode.Programmer (by decide) ViewMode.Date
    (by decide) (by decide)).1 (by decide)

/-- C15: `GetFlatIndex` counts one header slot before each group: it is 1 for Standard, and
for every manifest mode it is `GetIndex` plus 1 in the Calculator group and `GetIndex` plus
2 in the Converter group; for Currency it is 7 with Graphing and 6 without. -/
theorem C15_flat_index (supportGraph : Bool) (policy : Option Nat) (cached : Option Bool) :
    GetFlatIndex (s_categoryManifest supportGraph policy cached).1 ViewMode.Standard = 1
    ∧ (∀ mode ∈ viewModes (s_categoryManifest supportGraph policy cached).1,
        (GetGroupType (s_categoryManifest supportGraph policy cached).1 mode
            = CategoryGroupType.Calculator →
          GetFlatIndex (s_categoryManifest supportGraph policy cached).1 mode
            = GetIndex (s_categoryManifest supportGraph policy cached).1 mode + 1)
        ∧ (GetGroupType (s_categoryManifest supportGraph policy cached).1 mode
            = CategoryGroupType.Converter →
          GetFlatIndex (s_categoryManifest supportGraph policy cached).1 mode
            = GetIndex (s_categoryManifest supportGraph policy cached).1 mode + 2))
    ∧ GetFlatIndex (s_categoryManifest supportGraph policy cached).1 ViewMode.Currency
        = (if ViewMode.Graphing ∈ viewModes (s_categoryManifest supportGraph policy cached).1
            then 7 else 6) := by
  rw [s_categoryManifest_fst]
  generalize (IsGraphingModeEnabled supportGraph policy cached).1 = en
  refine ⟨?_, ?_, ?_⟩
  · cases supportGraph <;> cases en <;> decide
  · cases supportGraph <;> cases en <;> decide
  · cases supportGraph <;> cases en <;> decide

theorem C15_witness :
    GetFlatIndex (s_categoryManifest true none none).1 ViewMode.Volume
      = GetIndex (s_categoryManifest true none none).1 ViewMode.Volume + 2 :=
  ((C15_flat_index true none none).2.1 ViewMode.Volume (by decide)).2 (by decide)

/-- C16: in both configurations `IsCalculatorViewMode` is true exactly for Standard,
Scientific and Programmer, that is, exactly when the group of the mode is Calculator and
the mode is neither Date nor Graphing. -/
theorem C16_calculator_view_modes (supportGraph : Bool) (policy : Option Nat)
    (cached : Option Bool) (mode : ViewMode) :
    (IsCalculatorViewMode (s_categoryManifest supportGraph policy cached).1 mode = true
        ↔ mode = ViewMode.Standard ∨ mode = ViewMode.Scientific ∨ mode = ViewMode.Programmer)
    ∧ (IsCalculatorViewMode (s_categoryManifest supportGraph policy cached).1 mode = true
        ↔ GetGroupType (s_categoryManifest supportGraph policy cached).1 mode
              = CategoryGroupType.Calculator
            ∧ mode ≠ ViewMode.Date ∧ mode ≠ ViewMode.Graphing)
    ∧ IsCalculatorViewMode (s_categoryManifest supportGraph policy cached).1 ViewMode.Date
        = false
    ∧ IsCalculatorViewMode (s_categoryManifest supportGraph policy cached).1 ViewMode.Graphing
        = false
    ∧ IsCalculatorViewMode (s_categoryManifest supportGraph policy cached).1 ViewMode.Standard
        = true := by
  rw [s_categoryManifest_fst]
  generalize (IsGraphingModeEnabled supportGraph policy cached).1 = en
  cases supportGraph <;> cases en <;> cases mode <;> decide

/-- C17: `IsConverterViewMode` is true exactly when `GetGroupType` is Converter, which is
the case for Currency, Volume, Length, Weight, Temperature, Energy, Area, Speed, Time,
Power, Data, Pressure and Angle and for no other mode; no mode is both a converter and a
calculator view mode. -/
theorem C17_converter_view_modes (supportGraph : Bool) (policy : Option Nat)
    (cached : Option Bool) (mode : ViewMode) :
    (IsConverterViewMode (s_categoryManifest supportGraph policy cached).1 mode = true
        ↔ GetGroupType (s_categoryManifest supportGraph policy cached).1 mode
            = CategoryGroupType.Converter)
    ∧ (IsConverterViewMode (s_categoryManifest supportGraph policy cached).1 mode = true
        ↔ mode ∈ [ViewMode.Currency, ViewMode.Volume, ViewMode.Length, ViewMode.Weight,
                  ViewMode.Temperature, ViewMode.Energy, ViewMode.Area, ViewMode.Speed,
                  ViewMode.Time, ViewMode.Power, ViewMode.Data, ViewMode.Pressure,
                  ViewMode.Angle])
    ∧ ¬ (IsConverterViewMode (s_categoryManifest supportGraph policy cached).1 mode = true
          ∧ IsCalculatorViewMode (s_categoryManifest supportGraph policy cached).1 mode
              = true) := by
  rw [s_categoryManifest_fst]
  generalize (IsGraphingModeEnabled supportGraph policy cached).1 = en
  cases supportGraph <;> cases en <;> cases mode <;> decide

/-- C19: `IsViewModePreview mode` is true if and only if the mode is Graphing and the
Graphing descriptor is in the manifest; it is false for every other mode, in the manifest
or not. -/
theorem C19_preview_is_graphing (supportGraph : Bool) (policy : Option Nat)
    (cached : Option Bool) (mode : ViewMode) :
    (IsViewModePreview (s_categoryManifest supportGraph policy cached).1 mode = true
      ↔ mode = ViewMode.Graphing
          ∧ ViewMode.Graphing ∈ viewModes (s_categoryManifest supportGraph policy cached).1)
    ∧ (mode ≠ ViewMode.Graphing →
        IsViewModePreview (s_categoryManifest supportGraph policy cached).1 mode = false)
    ∧ (mode ∉ viewModes (s_categoryManifest supportGraph policy cached).1 →
        IsViewModePreview (s_categoryManifest supportGraph policy cached).1 mode = false) := by
  rw [s_categoryManifest_fst]
  generalize (IsGraphingModeEnabled supportGraph policy cached).1 = en
  cases supportGraph <;> cases en <;> cases mode <;> decide

theorem C19_witness :
    IsViewModePreview (s_categoryManifest true none none).1 ViewMode.Date = false
    ∧ IsViewModePreview (s_categoryManifest false none none).1 ViewMode.Graphing = false :=
  ⟨(C19_preview_is_graphing true none none ViewMode.Date).2.1 (by decide),
   (C19_preview_is_graphing false none none ViewMode.Graphing).2.2 (by decide)⟩

theorem cString_cons_nul (r : List Char) : cString (Char.ofNat 0 :: r) = [] := by
  simp [cString, List.takeWhile_cons]

theorem cString_cons (c : Char) (r : List Char) (h : c ≠ Char.ofNat 0) :
    cString (c :: r) = c :: cString r := by
  simp [cString, List.takeWhile_cons, h]

/-- `wcscmp` is 0 exactly when the two buffers hold the same C string. -/
theorem wcscmp_eq_zero_iff (s1 s2 : List Char) :
    wcscmp s1 s2 = 0 ↔ cString s1 = cString s2 := by
  induction s1 generalizing s2 with
  | nil =>
    cases s2 with
    | nil => simp [wcscmp]
    | cons c2 r2 =>
      by_cases h : c2 = Char.ofNat 0
      · subst h
        simp [wcscmp, cString_cons_nul, cString]
      · simp [wcscmp, cString_cons _ _ h, h, cString]
  | cons c1 r1 ih =>
    cases s2 with
    | nil =>
      by_cases h : c1 = Char.ofNat 0
      · subst h
        simp [wcscmp, cString_cons_nul, cString]
      · simp [wcscmp, cString_cons _ _ h, h, cString]
    | cons c2 r2 =>
      by_cases h12 : c1 = c2
      · subst h12
        by_cases h : c1 = Char.ofNat 0
        · subst h
          simp [wcscmp, cString_cons_nul]
        · simp [wcscmp, cString_cons _ _ h, h, ih r2]
      · have hne : wcscmp (c1 :: r1) (c2 :: r2) ≠ 0 := by
          unfold wcscmp
          rw [if_neg h12]
          split <;> decide
        have hcs : cString (c1 :: r1) ≠ cString (c2 :: r2) := by
          by_cases h1 : c1 = Char.ofNat 0
          · have h2 : c2 ≠ Char.ofNat 0 := fun h2 => h12 (h1.trans h2.symm)
            subst h1
            rw [cString_cons_nul, cString_cons _ _ h2]
            exact fun h => List.noConfusion h
          · by_cases h2 : c2 = Char.ofNat 0
            · subst h2
              rw [cString_cons_nul, cString_cons _ _ h1]
              exact fun h => List.noConfusion h
            · rw [cString_cons _ _ h1, cString_cons _ _ h2]
              intro h
              exact h12 (List.cons.inj h).1
        exact ⟨fun h => absurd h hne, fun h => absurd h hcs⟩

/-- C18, as stated, fails: the name made of `Standard`, a NUL and `x` is the friendly name
of no manifest descriptor, yet `wcscmp` reads it as the C string `Standard` and the lookup
returns Standard instead of `None`. -/
theorem C18_counterexample :
    (∀ d ∈ (s_categoryManifest true none none).1, d.friendlyName ≠ "Standard\x00x")
    ∧ GetViewModeForFriendlyName (s_categoryManifest true none none).1 "Standard\x00x"
        = ViewMode.Standard
    ∧ GetViewModeForFriendlyName (s_categoryManifest true none none).1 "Standard\x00x"
        ≠ ViewMode.None := by
  decide

/-- The friendly names of the manifest hold no NUL, and the descriptor found by the C
string of its own friendly name is the descriptor itself. -/
theorem find_friendlyName_manifestOf (supportGraph isEnabled : Bool) :
    ∀ d ∈ manifestOf supportGraph isEnabled,
      cString d.friendlyName.data = d.friendlyName.data
      ∧ (manifestOf supportGraph isEnabled).find?
          (fun initializer => cString initializer.friendlyName.data
            == cString d.friendlyName.data) = some d := by
  cases supportGraph <;> cases isEnabled <;> decide

/-- The lookup by friendly name, with the `wcscmp` test written as equality of C strings. -/
theorem GetViewModeForFriendlyName_eq (manifest : List NavCategoryInitializer)
    (name : String) :
    GetViewModeForFriendlyName manifest name
      = match manifest.find? (fun initializer =>
            cString initializer.friendlyName.data == cString name.data) with
        | some iter => iter.viewMode
        | none => ViewMode.None := by
  unfold GetViewModeForFriendlyName
  have hp : (fun initializer : NavCategoryInitializer =>
        wcscmp initializer.friendlyName.data name.data == 0)
      = (fun initializer => cString initializer.friendlyName.data == cString name.data) := by
    funext initializer
    have h := wcscmp_eq_zero_iff initializer.friendlyName.data name.data
    by_cases hc : cString initializer.friendlyName.data = cString name.data
    · simp [hc, h.2 hc]
    · have hw : wcscmp initializer.friendlyName.data name.data ≠ 0 := fun hw => hc (h.1 hw)
      simp [hc, hw]
  rw [hp]

theorem cString_of_no_nul (data : List Char) (h : Char.ofNat 0 ∉ data) :
    cString data = data := by
  unfold cString
  rw [List.takeWhile_eq_self_iff]
  intro c hc
  have : c ≠ Char.ofNat 0 := fun hcz => h (hcz ▸ hc)
  simpa using this

/-- C18, amended: friendly names are pairwise distinct and the lookup is bidirectional on
the manifest: `GetViewModeForFriendlyName (GetFriendlyName m) = m` for every manifest mode
and `None` for the name of the mode `None`. Names are compared as C strings (`wcscmp`):
a name is read up to its first NUL, the lookup returns the mode of the descriptor whose
friendly name is that C string, and `None` when there is none; for a name holding no NUL
that is `None` exactly as the claim says, for every name that is not a friendly name. -/
theorem C18_friendly_name_lookup (supportGraph : Bool) (policy : Option Nat)
    (cached : Option Bool) :
    (∀ m ∈ viewModes (s_categoryManifest supportGraph policy cached).1,
        GetViewModeForFriendlyName (s_categoryManifest supportGraph policy cached).1
          (GetFriendlyName (s_categoryManifest supportGraph policy cached).1 m) = m)
    ∧ ((s_categoryManifest supportGraph policy cached).1.map
        (fun initializer => initializer.friendlyName)).Nodup
    ∧ (∀ name : String,
        (∀ d ∈ (s_categoryManifest supportGraph policy cached).1,
          cString d.friendlyName.data ≠ cString name.data) →
        GetViewModeForFriendlyName (s_categoryManifest supportGraph policy cached).1 name
          = ViewMode.None)
    ∧ (∀ name : String, Char.ofNat 0 ∉ name.data →
        (∀ d ∈ (s_categoryManifest supportGraph policy cached).1, d.friendlyName ≠ name) →
        GetViewModeForFriendlyName (s_categoryManifest supportGraph policy cached).1 name
          = ViewMode.None)
    ∧ (∀ d ∈ (s_categoryManifest supportGraph policy cached).1, ∀ name : String,
        cString name.data = cString d.friendlyName.data →
        GetViewModeForFriendlyName (s_categoryManifest supportGraph policy cached).1 name
          = d.viewMode)
    ∧ GetViewModeForFriendlyName (s_categoryManifest supportGraph policy cached).1
        (GetFriendlyName (s_categoryManifest supportGraph policy cached).1 ViewMode.None)
        = ViewMode.None := by
  rw [s_categoryManifest_fst]
  generalize (IsGraphingModeEnabled supportGraph policy cached).1 = en
  have hnone : ∀ name : String,
      (∀ d ∈ manifestOf supportGraph en, cString d.friendlyName.data ≠ cString name.data) →
      GetViewModeForFriendlyName (manifestOf supportGraph en) name = ViewMode.None := by
    intro name hname
    rw [GetViewModeForFriendlyName_eq]
    have hfind : (manifestOf supportGraph en).find? (fun initializer =>
        cString initializer.friendlyName.data == cString name.data) = none := by
      rw [List.find?_eq_none]
      intro x hx hxn
      exact hname x hx (by simpa using hxn)
    rw [hfind]
  refine ⟨?_, ?_, hnone, ?_, ?_, ?_⟩
  · cases supportGraph <;> cases en <;> decide
  · cases supportGraph <;> cases en <;> decide
  · intro name hnul hname
    apply hnone
    intro d hd hcs
    rw [(find_friendlyName_manifestOf supportGraph en d hd).1,
      cString_of_no_nul name.data hnul] at hcs
    exact hname d hd (String.ext hcs)
  · intro d hd name hcs
    rw [GetViewModeForFriendlyName_eq, hcs,
      (find_friendlyName_manifestOf supportGraph en d hd).2]
  · cases supportGraph <;> cases en <;> decide

theorem C18_witness :
    GetViewModeForFriendlyName (s_categoryManifest true none none).1
        (GetFriendlyName (s_categoryManifest true none none).1 ViewMode.Weight)
      = ViewMode.Weight
    ∧ GetViewModeForFriendlyName (s_categoryManifest true none none).1 "Weight"
      = ViewMode.None :=
  ⟨(C18_friendly_name_lookup true none none).1 ViewMode.Weight (by decide),
   (C18_friendly_name_lookup true none none).2.2.2.1 "Weight" (by decide) (by decide)⟩

/-- The two groups of the menu: their group types and, entry by entry, the view mode and
flags they carry. -/
theorem CreateMenuOptions_entries (supportGraph isEnabled : Bool)
    (resProvider : Localization) :
    (NavCategoryGroup.CreateMenuOptions (manifestOf supportGraph isEnabled) resProvider).map
        (fun group => (group.m_GroupType, menuEntries group))
      = [(CategoryGroupType.Calculator,
            manifestEntries (manifestOf supportGraph isEnabled) CategoryGroupType.Calculator),
         (CategoryGroupType.Converter,
            manifestEntries (manifestOf supportGraph isEnabled) CategoryGroupType.Converter)] := by
  cases supportGraph <;> cases isEnabled <;> rfl

theorem menuViewModes_eq (group : NavCategoryGroup) :
    menuViewModes group = (menuEntries group).map (fun entry => entry.1) := by
  simp [menuViewModes, menuEntries, List.map_map, Function.comp_def]

/-- C20: `CreateMenuOptions` returns two groups, Calculator first and Converter second; the
entries of each group are the manifest descriptors of that group in manifest order, each
with the view mode and the `supportsNegative`, `isEnabled` and `isPreview` flags of its
descriptor; the entry at list index `i` has `GetIndexInGroup` `i` for the group; and every
manifest mode is in exactly one of the two lists, exactly once. -/
theorem C20_menu_options (supportGraph : Bool) (policy : Option Nat) (cached : Option Bool)
    (resProvider : Localization) :
    (NavCategoryGroup.CreateMenuOptions (s_categoryManifest supportGraph policy cached).1
        resProvider).map (fun group => group.m_GroupType)
      = [CategoryGroupType.Calculator, CategoryGroupType.Converter]
    ∧ (∀ group ∈ NavCategoryGroup.CreateMenuOptions
          (s_categoryManifest supportGraph policy cached).1 resProvider,
        menuEntries group
          = manifestEntries (s_categoryManifest supportGraph policy cached).1 group.m_GroupType
        ∧ (menuViewModes group).map (fun mode =>
              GetIndexInGroup (s_categoryManifest supportGraph policy cached).1 mode
                group.m_GroupType)
          = (List.range group.m_Categories.length).map (fun i => (i : Int)))
    ∧ (∀ mode ∈ viewModes (s_categoryManifest supportGraph policy cached).1,
        (((NavCategoryGroup.CreateMenuOptions (s_categoryManifest supportGraph policy cached).1
            resProvider).map menuViewModes).map (fun modes => modes.count mode) = [1, 0]
        ∨ ((NavCategoryGroup.CreateMenuOptions (s_categoryManifest supportGraph policy cached).1
            resProvider).map menuViewModes).map (fun modes => modes.count mode) = [0, 1])) := by
  rw [s_categoryManifest_fst]
  generalize (IsGraphingModeEnabled supportGraph policy cached).1 = en
  have hall := CreateMenuOptions_entries supportGraph en resProvider
  have hgroups : NavCategoryGroup.CreateMenuOptions (manifestOf supportGraph en) resProvider
      = [NavCategoryGroup.CreateCalculatorCategory (manifestOf supportGraph en) resProvider,
         NavCategoryGroup.CreateConverterCategory (manifestOf supportGraph en) resProvider] :=
    rfl
  rw [hgroups] at hall ⊢
  simp only [List.map_cons, List.map_nil, List.cons.injEq, Prod.mk.injEq, and_true] at hall
  obtain ⟨⟨hcalcT, hcalcE⟩, hconvT, hconvE⟩ := hall
  have hlen : ∀ group : NavCategoryGroup,
      group.m_Categories.length = (menuEntries group).length := by
    intro group
    simp [menuEntries]
  refine ⟨?_, ?_, ?_⟩
  · simp only [List.map_cons, List.map_nil, hcalcT, hconvT]
  · intro group hgroup
    simp only [List.mem_cons, List.mem_singleton, List.not_mem_nil, or_false] at hgroup
    rcases hgroup with rfl | rfl
    · rw [menuViewModes_eq, hlen, hcalcE, hcalcT]
      refine ⟨rfl, ?_⟩
      cases supportGraph <;> cases en <;> decide
    · rw [menuViewModes_eq, hlen, hconvE, hconvT]
      refine ⟨rfl, ?_⟩
      cases supportGraph <;> cases en <;> decide
  · simp only [List.map_cons, List.map_nil, menuViewModes_eq, hcalcE, hconvE]
    cases supportGraph <;> cases en <;> decide

theorem C20_witness :
    menuViewModes (NavCategoryGroup.CreateConverterCategory (s_categoryManifest false none none).1
        ⟨fun key => key, fun format _ => format⟩)
      = [ViewMode.Currency, ViewMode.Volume, ViewMode.Length, ViewMode.Weight,
         ViewMode.Temperature, ViewMode.Energy, ViewMode.Area, ViewMode.Speed, ViewMode.Time,
         ViewMode.Power, ViewMode.Data, ViewMode.Pressure, ViewMode.Angle]
    ∧ (menuViewModes (NavCategoryGroup.CreateConverterCategory
          (s_categoryManifest false none none).1 ⟨fun key => key, fun format _ => format⟩)).map
        (fun mode => GetIndexInGroup (s_categoryManifest false none none).1 mode
          CategoryGroupType.Converter)
      = (List.range 13).map (fun i => (i : Int)) :=
  ⟨by decide,
   ((C20_menu_options false none none ⟨fun key => key, fun format _ => format⟩).2.1
      (NavCategoryGroup.CreateConverterCategory (s_categoryManifest false none none).1
        ⟨fun key => key, fun format _ => format⟩) (by simp [NavCategoryGroup.CreateMenuOptions])).2⟩

/-- C21: the policy check is fail-open. On an evaluation with an empty cache
`IsGraphingModeEnabled` returns false when graphing is unavailable; when graphing is
available it returns true if the policy read fails or finds no value, and otherwise true
exactly when the DWORD read is not zero. The `isEnabled` flag of the Graphing descriptor
is the result of the evaluation made while the manifest is built. -/
theorem C21_policy_check_fail_open (policy : Option Nat) (cached : Option Bool) :
    (IsGraphingModeEnabled false policy none).1 = false
    ∧ (IsGraphingModeEnabled true none none).1 = true
    ∧ (∀ allowGraphingCalculator : Nat,
        ((IsGraphingModeEnabled true (some allowGraphingCalculator) none).1 = true
          ↔ allowGraphingCalculator ≠ 0))
    ∧ (∀ d ∈ (s_categoryManifest true policy cached).1, d.viewMode = ViewMode.Graphing →
        d.isEnabled = (IsGraphingModeEnabled true policy cached).1)
    ∧ (∃ d ∈ (s_categoryManifest true policy cached).1, d.viewMode = ViewMode.Graphing) := by
  refine ⟨rfl, rfl, ?_, ?_, ?_⟩
  · intro allowGraphingCalculator
    simp [IsGraphingModeEnabled, IsGraphingModeAvailable]
  · rw [s_categoryManifest_fst]
    generalize (IsGraphingModeEnabled true policy cached).1 = en
    cases en <;> decide
  · rw [s_categoryManifest_fst]
    generalize (IsGraphingModeEnabled true policy cached).1 = en
    cases en <;> decide

/-- With a filled cache every call returns the cached value and leaves the cache. -/
theorem callsOfIsGraphingModeEnabled_cached (value : Bool) (policies : List (Option Nat)) :
    callsOfIsGraphingModeEnabled true policies (some value)
      = List.replicate policies.length (value, some value) := by
  induction policies with
  | nil => rfl
  | cons policy rest ih =>
    show (value, some value) :: callsOfIsGraphingModeEnabled true rest (some value) = _
    rw [ih]
    rfl

/-- C22: the cache is written at most once. With graphing available the first call takes
the cache from empty to a value, and every later call returns that value and leaves the
cache as it is, whatever the policy read yields then; with graphing unavailable every
call returns false and leaves the cache as it found it. -/
theorem C22_cache_written_once (policy : Option Nat) (rest policies : List (Option Nat))
    (value : Bool) (cached : Option Bool) :
    (IsGraphingModeEnabled true policy none).2
        = some (IsGraphingModeEnabled true policy none).1
    ∧ IsGraphingModeEnabled true policy (some value) = (value, some value)
    ∧ callsOfIsGraphingModeEnabled true (policy :: rest) none
        = List.replicate (rest.length + 1)
            ((IsGraphingModeEnabled true policy none).1,
              some (IsGraphingModeEnabled true policy none).1)
    ∧ callsOfIsGraphingModeEnabled false policies cached
        = List.replicate policies.length (false, cached) := by
  have hfirst : (IsGraphingModeEnabled true policy none).2
      = some (IsGraphingModeEnabled true policy none).1 := by
    cases policy <;> rfl
  refine ⟨hfirst, rfl, ?_, ?_⟩
  · show IsGraphingModeEnabled true policy none
        :: callsOfIsGraphingModeEnabled true rest (IsGraphingModeEnabled true policy none).2 = _
    rw [hfirst, callsOfIsGraphingModeEnabled_cached, List.replicate_succ]
    congr 1
    exact Prod.ext rfl hfirst
  · induction policies with
    | nil => rfl
    | cons p ps ih =>
      show (false, cached) :: callsOfIsGraphingModeEnabled false ps cached = _
      rw [ih]
      rfl

/-- In the manifest `Serialize` of a descriptor's mode is the descriptor's id. -/
theorem Serialize_manifestOf (supportGraph isEnabled : Bool) :
    ∀ d ∈ manifestOf supportGraph isEnabled,
      Serialize (manifestOf supportGraph isEnabled) d.viewMode = d.serializationId := by
  cases supportGraph <;> cases isEnabled <;> decide

/-- C23: `Serialize` is a left inverse of `Deserialize` where `Deserialize` succeeds: if
`Deserialize` of the boxed `id` is a mode other than `None`, `Serialize` of that mode is
`id`. -/
theorem C23_serialize_left_inverse (supportGraph : Bool) (policy0 policy : Option Nat)
    (cached0 cached : Option Bool) (id : Int)
    (h : (Deserialize (s_categoryManifest supportGraph policy0 cached0).1 supportGraph policy
            cached (PlatformObject.BoxInt id)).1 ≠ ViewMode.None) :
    Serialize (s_categoryManifest supportGraph policy0 cached0).1
        (Deserialize (s_categoryManifest supportGraph policy0 cached0).1 supportGraph policy
          cached (PlatformObject.BoxInt id)).1 = id := by
  rw [s_categoryManifest_fst] at h ⊢
  generalize (IsGraphingModeEnabled supportGraph policy0 cached0).1 = en at h ⊢
  rw [Deserialize_BoxInt] at h ⊢
  cases hfind : (manifestOf supportGraph en).find?
      (fun initializer => initializer.serializationId == id) with
  | none =>
    rw [hfind] at h
    exact absurd rfl h
  | some d =>
    rw [hfind] at h
    dsimp only at h ⊢
    have hd : d ∈ manifestOf supportGraph en := List.mem_of_find?_eq_some hfind
    have hid : d.serializationId = id := by
      simpa using List.find?_some hfind
    by_cases hc : d.viewMode = ViewMode.Graphing
        ∧ (IsGraphingModeEnabled supportGraph policy cached).1 = false
    · simp only [hc, and_self, if_true] at h
      exact absurd rfl h
    · simp only [hc, if_false]
      rw [Serialize_manifestOf supportGraph en d hd, hid]

theorem C23_witness :
    (Deserialize (s_categoryManifest true none none).1 true none (some true)
        (PlatformObject.BoxInt 17)).1 ≠ ViewMode.None
    ∧ Serialize (s_categoryManifest true none none).1
        (Deserialize (s_categoryManifest true none none).1 true none (some true)
          (PlatformObject.BoxInt 17)).1 = 17 :=
  ⟨by decide, C23_serialize_left_inverse true none none none (some true) 17 (by decide)⟩

/-- C24: in both configurations the manifest is a block of Calculator-group entries (5
with Graphing, 4 without) followed by 13 Converter-group entries, and no entry has group
`None`; so for every manifest mode `GetIndex` is `GetIndexInGroup` for the Calculator
group in the first block, and the number of Calculator-group entries plus
`GetIndexInGroup` for the Converter group in the second. -/
theorem C24_group_blocks (supportGraph : Bool) (policy : Option Nat) (cached : Option Bool) :
    (s_categoryManifest supportGraph policy cached).1.map
        (fun initializer => initializer.groupType)
      = List.replicate (calculatorCount (s_categoryManifest supportGraph policy cached).1)
          CategoryGroupType.Calculator
        ++ List.replicate 13 CategoryGroupType.Converter
    ∧ calculatorCount (s_categoryManifest supportGraph policy cached).1
      = (if ViewMode.Graphing ∈ viewModes (s_categoryManifest supportGraph policy cached).1
          then 5 else 4)
    ∧ (∀ d ∈ (s_categoryManifest supportGraph policy cached).1,
        d.groupType ≠ CategoryGroupType.None)
    ∧ (∀ mode ∈ viewModes (s_categoryManifest supportGraph policy cached).1,
        (GetGroupType (s_categoryManifest supportGraph policy cached).1 mode
            = CategoryGroupType.Calculator →
          GetIndex (s_categoryManifest supportGraph policy cached).1 mode
            = GetIndexInGroup (s_categoryManifest supportGraph policy cached).1 mode
                CategoryGroupType.Calculator)
        ∧ (GetGroupType (s_categoryManifest supportGraph policy cached).1 mode
            = CategoryGroupType.Converter →
          GetIndex (s_categoryManifest supportGraph policy cached).1 mode
            = (calculatorCount (s_categoryManifest supportGraph policy cached).1 : Int)
              + GetIndexInGroup (s_categoryManifest supportGraph policy cached).1 mode
                  CategoryGroupType.Converter)) := by
  rw [s_categoryManifest_fst]
  generalize (IsGraphingModeEnabled supportGraph policy cached).1 = en
  refine ⟨?_, ?_, ?_, ?_⟩
  · cases supportGraph <;> cases en <;> decide
  · cases supportGraph <;> cases en <;> decide
  · cases supportGraph <;> cases en <;> decide
  · cases supportGraph <;> cases en <;> decide

theorem C24_witness :
    GetIndex (s_categoryManifest true none none).1 ViewMode.Volume
      = (calculatorCount (s_categoryManifest true none none).1 : Int)
        + GetIndexInGroup (s_categoryManifest true none none).1 ViewMode.Volume
            CategoryGroupType.Converter :=
  ((C24_group_blocks true none none).2.2.2 ViewMode.Volume (by decide)).2 (by decide)

/-- C26: `ShouldDisplayPanel` is `Visible` exactly when the state is not small or equation
mode differs from the panel kind; so outside the small state the graph panel and the
equation panel are both `Visible`, and in the small state exactly one of them is: the
equation panel when equation mode is activated, the graph panel otherwise. -/
theorem C26_should_display_panel (isSmallState isEquationModeActivated isGraphPanel : Bool) :
    (GraphingCalculator.ShouldDisplayPanel isSmallState isEquationModeActivated isGraphPanel
        = Visibility.Visible
      ↔ isSmallState = false ∨ isEquationModeActivated ≠ isGraphPanel)
    ∧ GraphingCalculator.ShouldDisplayPanel false isEquationModeActivated true
        = Visibility.Visible
    ∧ GraphingCalculator.ShouldDisplayPanel false isEquationModeActivated false
        = Visibility.Visible
    ∧ (GraphingCalculator.ShouldDisplayPanel true isEquationModeActivated false
        = Visibility.Visible ↔ isEquationModeActivated = true)
    ∧ (GraphingCalculator.ShouldDisplayPanel true isEquationModeActivated true
        = Visibility.Visible ↔ isEquationModeActivated = false)
    ∧ (GraphingCalculator.ShouldDisplayPanel true isEquationModeActivated true
        = Visibility.Visible
      ↔ GraphingCalculator.ShouldDisplayPanel true isEquationModeActivated false
        ≠ Visibility.Visible) := by
  cases isSmallState <;> cases isEquationModeActivated <;> cases isGraphPanel <;> decide

/-- The loop that refills the graph control appends the graph equations in order. -/
theorem foldl_append_GraphEquation {E : Type} (equations : List (EquationViewModel E))
    (start : List E) :
    equations.foldl (fun filled equationViewModel =>
        filled ++ [equationViewModel.GraphEquation]) start
      = start ++ graphEquations equations := by
  induction equations generalizing start with
  | nil => simp [graphEquations]
  | cons first rest ih =>
    rw [List.foldl_cons, ih]
    simp [graphEquations]

theorem graphEquations_eraseIdx {E : Type} (equations : List (EquationViewModel E))
    (Index : Nat) :
    (graphEquations equations).eraseIdx Index = graphEquations (equations.eraseIdx Index) := by
  induction equations generalizing Index with
  | nil => rfl
  | cons first rest ih =>
    cases Index with
    | zero => rfl
    | succ n =>
      show first.GraphEquation :: (graphEquations rest).eraseIdx n = _
      rw [ih n]
      rfl

theorem getElem?_inserted {E : Type} (old : List (EquationViewModel E))
    (item : EquationViewModel E) (Index : Nat) (h : Index ≤ old.length) :
    (old.take Index ++ item :: old.drop Index)[Index]? = some item := by
  have hlen : (old.take Index).length = Index := by
    rw [List.length_take]
    omega
  rw [List.getElem?_append_right (by omega), hlen]
  simp

/-- C25, the code at the failing input: the view model holds one equation `x` (graph
equation 1), mirrored by the graph control, and an equation with an empty expression
(graph equation 2) is inserted at index 0. The handler appends its graph equation, so the
graph control holds 1, 2 while the view model holds 2, 1. On every other event the mirror
is kept: a reset, a removal, and an insertion of an equation with a non-empty expression
or at the end of the list; the graph is plotted exactly on a reset and when the inserted
or removed equation has a non-empty expression, and an `ItemChanged` event changes
nothing. -/
theorem C25_empty_insert_is_appended {E : Type} (Expression : E → String)
    (old new : List (EquationViewModel E)) (item : EquationViewModel E) (Index plots : Nat)
    (GraphingControl : GraphingControlState E) :
    (GraphingCalculator.OnEquationsVectorChanged (fun n : Nat => if n = 1 then "x" else "")
        [⟨"", 2⟩, ⟨"x", 1⟩] CollectionChange.ItemInserted 0 ⟨graphEquations [⟨"x", 1⟩], 0⟩
      = some ⟨[1, 2], 0⟩
      ∧ graphEquations [(⟨"", 2⟩ : EquationViewModel Nat), ⟨"x", 1⟩] = [2, 1])
    ∧ GraphingCalculator.OnEquationsVectorChanged Expression new CollectionChange.Reset Index
        ⟨graphEquations old, plots⟩ = some ⟨graphEquations new, plots + 1⟩
    ∧ (∀ removed, old[Index]? = some removed →
        GraphingCalculator.OnEquationsVectorChanged Expression (old.eraseIdx Index)
            CollectionChange.ItemRemoved Index ⟨graphEquations old, plots⟩
          = some ⟨graphEquations (old.eraseIdx Index),
              if Expression removed.GraphEquation = "" then plots else plots + 1⟩)
    ∧ (Index ≤ old.length → (item.Expression ≠ "" ∨ Index = old.length) →
        GraphingCalculator.OnEquationsVectorChanged Expression
            (old.take Index ++ item :: old.drop Index) CollectionChange.ItemInserted Index
            ⟨graphEquations old, plots⟩
          = some ⟨graphEquations (old.take Index ++ item :: old.drop Index),
              if item.Expression = "" then plots else plots + 1⟩)
    ∧ (Index ≤ old.length → item.Expression = "" →
        GraphingCalculator.OnEquationsVectorChanged Expression
            (old.take Index ++ item :: old.drop Index) CollectionChange.ItemInserted Index
            ⟨graphEquations old, plots⟩
          = some ⟨graphEquations old ++ [item.GraphEquation], plots⟩)
    ∧ GraphingCalculator.OnEquationsVectorChanged Expression new CollectionChange.ItemChanged
        Index GraphingControl = some GraphingControl := by
  refine ⟨by decide, ?_, ?_, ?_, ?_, rfl⟩
  · simp [GraphingCalculator.OnEquationsVectorChanged, foldl_append_GraphEquation]
  · intro removed hremoved
    have hget : (graphEquations old)[Index]? = some removed.GraphEquation := by
      simp [graphEquations, hremoved]
    unfold GraphingCalculator.OnEquationsVectorChanged
    simp only [hget, foldl_append_GraphEquation, List.nil_append]
    by_cases hempty : Expression removed.GraphEquation = ""
    · simp [hempty, graphEquations_eraseIdx]
    · simp [hempty]
  · intro hIndex hcase
    unfold GraphingCalculator.OnEquationsVectorChanged
    simp only [getElem?_inserted old item Index hIndex, foldl_append_GraphEquation,
      List.nil_append]
    by_cases hempty : item.Expression = ""
    · have hend : Index = old.length := hcase.resolve_left (fun h => h hempty)
      subst hend
      simp [hempty, graphEquations]
    · simp [hempty]
  · intro hIndex hempty
    unfold GraphingCalculator.OnEquationsVectorChanged
    simp only [getElem?_inserted old item Index hIndex]
    simp [hempty]

theorem C25_witness :
    GraphingCalculator.OnEquationsVectorChanged (fun n : Nat => if n = 1 then "x" else "")
        ((([⟨"x", 1⟩] : List (EquationViewModel Nat)).take 1)
          ++ ⟨"", 2⟩ :: ([⟨"x", 1⟩] : List (EquationViewModel Nat)).drop 1)
        CollectionChange.ItemInserted 1 ⟨graphEquations [⟨"x", 1⟩], 0⟩
      = some ⟨graphEquations ((([⟨"x", 1⟩] : List (EquationViewModel Nat)).take 1)
          ++ ⟨"", 2⟩ :: ([⟨"x", 1⟩] : List (EquationViewModel Nat)).drop 1),
          if (⟨"", 2⟩ : EquationViewModel Nat).Expression = "" then 0 else 0 + 1⟩ :=
  (C25_empty_insert_is_appended (fun n : Nat => if n = 1 then "x" else "")
    [⟨"x", 1⟩] [] ⟨"", 2⟩ 1 0 ⟨[], 0⟩).2.2.2.1 (by decide) (Or.inr (by decide))

end CalculatorApp
